import Mathlib

/-!
Shallow embedding of the Cisco SMA Splunk SOAR connector
(`ciscosma_connector.py`, `ciscosma_consts.py`) and proofs about it.

JSON-like Python values are modelled by `Json`; action parameters are
association lists of `Json` values; the network, the `dateutil` date
parser, Python's `base64.b64decode` and the SOAR vault are oracles
collected in `Env`.  Operation handlers are state-passing functions on
`ConnState`; a Python exception that escapes a handler is modelled by
`Except.error` in the returned status.
-/

namespace CiscoSMA

/-- Model of a Python value as it appears in action parameters, request
payloads and JSON responses. -/
inductive Json where
  | null
  | bool (b : Bool)
  | num (n : Int)
  | str (s : String)
  | arr (elems : List Json)
  | obj (fields : List (String × Json))

/-- Model of a Python exception that a handler may raise. -/
inductive PyErr where
  | valueError (msg : String)
  | typeError (msg : String)
  | attributeError (msg : String)
  | keyError (msg : String)
  | indexError (msg : String)

def PyErr.text : PyErr → String
  | .valueError m => m
  | .typeError m => m
  | .attributeError m => m
  | .keyError m => m
  | .indexError m => m

/-- Python truthiness of a value. -/
def Json.truthy : Json → Bool
  | .null => false
  | .bool b => b
  | .num n => n != 0
  | .str s => s != ""
  | .arr l => !l.isEmpty
  | .obj f => !f.isEmpty

/-- Python `==` comparison of a value against a string literal. -/
def jEqStr (v : Json) (s : String) : Bool :=
  match v with
  | .str t => t == s
  | _ => false

/-- Python `!=` comparison of a value against a string literal. -/
def jNeqStr (v : Json) (s : String) : Bool := !jEqStr v s

/-- Python `v in l` membership test of a value in a list of strings. -/
def inValidList (v : Json) (l : List String) : Bool :=
  match v with
  | .str s => l.contains s
  | _ => false

abbrev Param := List (String × Json)

/-- Python `param.get(k)`. -/
def pget (p : Param) (k : String) : Option Json := p.lookup k

/-- Python `param.get(k, d)`. -/
def pgetD (p : Param) (k : String) (d : Json) : Json := (pget p k).getD d

/-- Python `param[k] = v` on a dict modelled as an association list:
replace in place if present, else append. -/
def pset (p : Param) (k : String) (v : Json) : Param :=
  if p.any (fun q => q.1 == k) then
    p.map (fun q => if q.1 == k then (k, v) else q)
  else
    p ++ [(k, v)]

def truthyO (v : Option Json) : Bool :=
  match v with
  | none => false
  | some j => j.truthy

/-- Python `str.lower()` on ASCII strings. -/
def strLower (s : String) : String := ⟨s.data.map Char.toLower⟩

/-- Whitespace characters stripped by Python `str.strip()`. -/
def pyIsSpace (c : Char) : Bool :=
  c == ' ' || c == '\t' || c == '\n' || c == '\r' || c.toNat == 11 || c.toNat == 12

/-- Python `str.strip()`. -/
def pyStrip (s : String) : String :=
  ⟨((s.data.dropWhile pyIsSpace).reverse.dropWhile pyIsSpace).reverse⟩

/-- Python `str.strip(chars)` for an explicit character set. -/
def pyStripChars (s : String) (cs : List Char) : String :=
  ⟨((s.data.dropWhile (cs.contains ·)).reverse.dropWhile (cs.contains ·)).reverse⟩

/-- Python `str.rstrip("/")`, used on the configured host URL. -/
def rstripSlashes (s : String) : String :=
  ⟨(s.data.reverse.dropWhile (fun c => c == '/')).reverse⟩

/-- Python `s.split(",")` on the character-list level: split at every
comma, keeping empty segments (`"".split(",") == [""]`). -/
def splitCommaList : List Char → List (List Char)
  | [] => [[]]
  | c :: rest =>
    if c = ',' then [] :: splitCommaList rest
    else
      match splitCommaList rest with
      | [] => [[c]]
      | g :: gs => (c :: g) :: gs

/-- Python `s.split(",")`. -/
def pySplitComma (s : String) : List String :=
  (splitCommaList s.data).map (fun l => ⟨l⟩)

/-- `[x.strip() for x in s.split(",")]`, the connector's conversion of a
comma-separated string parameter into a list. -/
def splitTrim (s : String) : List String := (pySplitComma s).map pyStrip

/-- Digits-and-value helper for Python `int(str)`: accumulate base-10
digits, allowing single underscores between digits. -/
def digitsValAcc (acc : Nat) : List Char → Option Nat
  | [] => some acc
  | c :: rest =>
    if c.isDigit then digitsValAcc (acc * 10 + (c.toNat - '0'.toNat)) rest
    else if c == '_' then
      match rest with
      | [] => none
      | d :: _ => if d.isDigit then digitsValAcc acc rest else none
    else none

/-- Python `int(s)` for base-10 string literals: surrounding whitespace
is ignored, an optional sign precedes the digits, underscores may
separate digits.  `none` models a raised `ValueError`. -/
def pyIntOfStr (s : String) : Option Int :=
  let t := (pyStrip s).data
  let (sign, digits) :=
    match t with
    | '+' :: rest => ((1 : Int), rest)
    | '-' :: rest => ((-1 : Int), rest)
    | rest => ((1 : Int), rest)
  match digits with
  | [] => none
  | d :: _ =>
    if !d.isDigit then none
    else
      match digitsValAcc 0 digits with
      | none => none
      | some v => some (sign * (v : Int))

mutual
/-- Python `repr` of a value (enough for the f-string renderings the
connector performs). -/
def pyRepr : Json → String
  | .null => "None"
  | .bool true => "True"
  | .bool false => "False"
  | .num n => toString n
  | .str s => "\x27" ++ s ++ "\x27"
  | .arr l => "[" ++ pyReprSeq l ++ "]"
  | .obj f => "\x7b" ++ pyReprFields f ++ "\x7d"

def pyReprSeq : List Json → String
  | [] => ""
  | [x] => pyRepr x
  | x :: xs => pyRepr x ++ ", " ++ pyReprSeq xs

def pyReprFields : List (String × Json) → String
  | [] => ""
  | [(k, v)] => "\x27" ++ k ++ "\x27: " ++ pyRepr v
  | (k, v) :: xs => "\x27" ++ k ++ "\x27: " ++ pyRepr v ++ ", " ++ pyReprFields xs
end

/-- Python `str(v)` / f-string interpolation of a value. -/
def pyFStr : Json → String
  | .str s => s
  | v => pyRepr v

/-- Python repr of a list of strings, as an f-string renders the
constant validation lists. -/
def listReprPy (l : List String) : String :=
  "[" ++ String.intercalate (", ") (l.map (fun s => "\x27" ++ s ++ "\x27")) ++ "]"

/-- Python `v.lower()` on a parameter value: raises `AttributeError`
when the value is not a string. -/
def pyLower (v : Json) : Except PyErr String :=
  match v with
  | .str s => .ok (strLower s)
  | _ => .error (.attributeError ("object has no attribute lower"))

/-- Python `int(v)` on a parameter value. -/
def pyToInt (v : Json) : Except PyErr Int :=
  match v with
  | .num n => .ok n
  | .bool b => .ok (if b then 1 else 0)
  | .str s =>
    match pyIntOfStr s with
    | some n => .ok n
    | none => .error (.valueError ("invalid literal for int() with base 10: " ++ pyRepr (.str s)))
  | _ => .error (.typeError ("int() argument must be a string, a bytes-like object or a real number"))

/-- Boolean substring test: is `n` an infix of `h` (Python `n in h`)? -/
def infixOfB (n : List Char) : List Char → Bool
  | [] => n.isEmpty
  | c :: t => n.isPrefixOf (c :: t) || infixOfB n t

/-- Python `needle in hay` on strings. -/
def containsSubstr (needle hay : String) : Bool := infixOfB needle.data hay.data

/-! ### Constants from `ciscosma_consts.py` -/

def CISCOSMA_VALID_ORDER_BY : List String := ["from_address", "to_address", "subject"]
def CISCOSMA_VALID_ORDER_DIRECTIONS : List String := ["asc", "desc"]
def CISCOSMA_VALID_FILTER_OPERATORS : List String :=
  ["contains", "is", "begins_with", "ends_with", "does_not_contain"]
def CISCOSMA_VALID_FILTER_OPERATORS_REPORT : List String := ["begins_with", "is"]
def CISCOSMA_VALID_SUBJECT_FILTERS : List String :=
  ["contains", "starts_with", "ends_with", "matches_exactly", "does_not_contain",
   "does_not_start_with", "does_not_end_with", "does_not_match"]
def CISCOSMA_VALID_SIZE_FILTERS : List String := ["range", "less_than", "more_than"]
def CISCOSMA_VALID_QUARANTINE_ORDER_BY : List String :=
  ["sender", "subject", "received", "scheduledExit", "size"]
def CISCOSMA_VALID_LIST_TYPES : List String := ["safelist", "blocklist"]
def CISCOSMA_VALID_LIST_VIEW_BY : List String := ["sender", "recipient"]
def CISCOSMA_VALID_LIST_ORDER_BY : List String := ["sender", "recipient"]
def CISCOSMA_DEFAULT_LIST_LIMIT : Int := 25
def CISCOSMA_DEFAULT_LIST_OFFSET : Int := 0

def CISCOSMA_GET_TOKEN_ENDPOINT : String := "/sma/api/v2.0/login"
def CISCOSMA_GET_SUBSCRIPTION_ENDPOINT : String := "/sma/api/v2.0/config/logs/subscriptions"
def CISCOSMA_GET_MESSAGE_DETAILS_ENDPOINT : String := "/sma/api/v2.0/quarantine/messages/details"
def CISCOSMA_GET_MESSAGE_TRACKING_DETAILS_ENDPOINT : String := "/sma/api/v2.0/message-tracking/details"
def CISCOSMA_SEARCH_MESSAGES_ENDPOINT : String := "/sma/api/v2.0/quarantine/messages"
def CISCOSMA_SEARCH_TRACKING_MESSAGES_ENDPOINT : String := "/sma/api/v2.0/message-tracking/messages"
def CISCOSMA_RELEASE_MESSAGES_ENDPOINT : String := "/sma/api/v2.0/quarantine/messages"
def CISCOSMA_DELETE_MESSAGES_ENDPOINT : String := "/sma/api/v2.0/quarantine/messages"
def CISCOSMA_SAFELIST_ENDPOINT : String := "/sma/api/v2.0/quarantine/safelist"
def CISCOSMA_BLOCKLIST_ENDPOINT : String := "/sma/api/v2.0/quarantine/blocklist"
/-- `CISCOSMA_REPORTING_ENDPOINT.format(x)`. -/
def reportingEndpoint (x : String) : String := "/sma/api/v2.0/reporting/" ++ x
def CISCOSMA_DOWNLOAD_ATTACHMENT_ENDPOINT : String := "/sma/api/v2.0/quarantine/messages/attachment"

/-! ### UTF-8 and base64 (Python `str.encode()` and `base64.b64encode`) -/

/-- UTF-8 encoding of one character, as a list of byte values. -/
def utf8EncodeCharB (c : Char) : List Nat :=
  let n := c.toNat
  if n < 0x80 then [n]
  else if n < 0x800 then [0xC0 + n / 0x40, 0x80 + n % 0x40]
  else if n < 0x10000 then
    [0xE0 + n / 0x1000, 0x80 + (n / 0x40) % 0x40, 0x80 + n % 0x40]
  else
    [0xF0 + n / 0x40000, 0x80 + (n / 0x1000) % 0x40, 0x80 + (n / 0x40) % 0x40, 0x80 + n % 0x40]

/-- Python `s.encode()` (UTF-8), as a list of byte values. -/
def utf8Bytes (s : String) : List Nat :=
  s.data.foldr (fun c acc => utf8EncodeCharB c ++ acc) []

def b64Alphabet : List Char :=
  "ABCDEFGHIJKLMNOPQRSTUVWXYZabcdefghijklmnopqrstuvwxyz0123456789+/".data

def b64Char (n : Nat) : Char := b64Alphabet.getD n 'A'

/-- Standard base64 of a byte list, chunked in threes with `=` padding. -/
def b64Chunks : List Nat → List Char
  | [] => []
  | [b1] => [b64Char (b1 / 4), b64Char (b1 % 4 * 16), '=', '=']
  | [b1, b2] => [b64Char (b1 / 4), b64Char (b1 % 4 * 16 + b2 / 16), b64Char (b2 % 16 * 4), '=']
  | b1 :: b2 :: b3 :: rest =>
    b64Char (b1 / 4) :: b64Char (b1 % 4 * 16 + b2 / 16) ::
      b64Char (b2 % 16 * 4 + b3 / 64) :: b64Char (b3 % 64) :: b64Chunks rest

/-- Python `base64.b64encode(bytes).decode()`. -/
def base64Encode (bs : List Nat) : String := ⟨b64Chunks bs⟩

/-! ### HTTP model -/

abbrev Headers := List (String × String)

/-- Python dict assignment / `dict.update` for a single header key. -/
def hset (hs : Headers) (k v : String) : Headers :=
  if hs.any (fun q => q.1 == k) then
    hs.map (fun q => if q.1 == k then (k, v) else q)
  else
    hs ++ [(k, v)]

def hFind (hs : Headers) (k : String) : Option String := hs.lookup k

/-- Case-insensitive header lookup (the `requests` library's response
header dict is case-insensitive). -/
def hFindCI (hs : Headers) (k : String) : Option String :=
  (hs.find? (fun q => strLower q.1 == strLower k)).map (·.2)

/-- A received HTTP response.  `jsonBody` is the result of parsing
`text` as JSON by the `requests` library: `none` models a parse
failure (`response.json()` raising `ValueError`). -/
structure Response where
  status : Nat
  headers : Headers
  text : String
  jsonBody : Option Json

/-- `response.headers.get("Content-Type", "")`. -/
def Response.contentType (r : Response) : String := (hFindCI r.headers ("Content-Type")).getD ""

/-- Outcome of `requests.request(...)`: a response, a raised
`requests.exceptions.RequestException`, or any other exception. -/
inductive TransportResult where
  | reqExn (msg : String)
  | otherExn (msg : String)
  | resp (r : Response)

/-- What `_make_rest_call` hands back on success: parsed JSON, or the
raw response object for non-JSON content types. -/
inductive Payload where
  | json (j : Json)
  | raw (r : Response)

/-- The failure message `_make_rest_call` builds for a non-200 status. -/
def apiFailMsg (r : Response) : String :=
  "API call failed. Status code: " ++ toString r.status ++ ". Response: " ++ r.text

/-- The success/error classification performed by `_make_rest_call`
(`ciscosma_connector.py` lines 78-115): content-type sniffing, JSON
parsing, status-code check, and the transport exception handlers. -/
def restCallClassify : TransportResult → Except String Payload
  | .reqExn m => .error ("Error connecting to server: " ++ m)
  | .otherExn m => .error ("Error making REST call: " ++ m)
  | .resp r =>
    if containsSubstr ("application/json") (strLower r.contentType) then
      match r.jsonBody with
      | none => .error ("Invalid JSON response from server: " ++ r.text)
      | some j =>
        if r.status != 200 then .error (apiFailMsg r)
        else .ok (.json j)
    else
      if r.status != 200 then .error (apiFailMsg r)
      else .ok (.raw r)

/-! ### Connector state, configuration and oracles -/

/-- The connection configuration fields set by `initialize`. -/
structure Config where
  baseUrl : String
  username : String
  password : String
  verify : Bool

/-- The raw asset configuration dict passed to `initialize`. -/
structure RawConfig where
  host : String
  username : String
  password : String
  verifyServerCert : Option Bool

/-- `initialize` (`ciscosma_connector.py` lines 1148-1154): strips
trailing slashes from the host and defaults TLS verification to off. -/
def mkConfig (raw : RawConfig) : Config :=
  { baseUrl := rstripSlashes raw.host
    username := raw.username
    password := raw.password
    verify := raw.verifyServerCert.getD false }

/-- One `phantom.ActionResult` (the Result Envelope): parameter copy,
final status/message, appended data rows and the summary dict. -/
structure ActionResult where
  param : Param
  status : Bool := false
  message : String := ""
  data : List Json := []
  summary : Json := Json.obj []

def ActionResult.init (p : Param) : ActionResult := { param := p }

def setStatus (ar : ActionResult) (b : Bool) (m : String) : ActionResult :=
  { ar with status := b, message := m }

def addData (ar : ActionResult) (j : Json) : ActionResult :=
  { ar with data := ar.data ++ [j] }

/-- Python `dict.update` of one dict by another (both always dicts in
the connector's summaries). -/
def objUpdate (old new : Json) : Json :=
  match old, new with
  | .obj a, .obj b => .obj (b.foldl (fun acc kv => pset acc kv.1 kv.2) a)
  | _, _ => new

def updateSummary (ar : ActionResult) (s : Json) : ActionResult :=
  { ar with summary := objUpdate ar.summary s }

/-- An outgoing HTTP request as handed to `requests.request` by
`_make_rest_call`. -/
structure Request where
  method : String
  url : String
  headers : Headers
  params : List (String × Json)
  jsonBody : Option Json
  verify : Bool

/-- Mutable connector state: immutable-by-design configuration plus the
per-run instrumentation (appended action results, progress messages and
the requests issued on the network). -/
structure ConnState where
  cfg : Config
  results : List ActionResult := []
  progress : List String := []
  netLog : List Request := []

/-- A parsed `datetime` as produced by `dateutil.parser.parse`. -/
structure PyDateTime where
  year : Nat
  month : Nat
  day : Nat
  hour : Nat
  minute : Nat
  second : Nat
  microsecond : Nat

/-- Result of `Vault.add_attachment`. -/
structure VaultRet where
  succeeded : Bool
  message : Option String
  vaultId : Option String

/-- Oracles for the external world: the `dateutil` parser (`none`
models a raised exception), the network transport indexed by how many
requests were issued before, `base64.b64decode` (`none` models a raised
`binascii.Error`), and the vault. -/
structure Env where
  parseDate : Json → Option PyDateTime
  transport : Nat → Request → TransportResult
  b64decode : String → Option (List Nat)
  vaultAdd : String → VaultRet

def pad2 (n : Nat) : String := if n < 10 then "0" ++ toString n else toString n

def pad4 (n : Nat) : String :=
  if n < 10 then "000" ++ toString n
  else if n < 100 then "00" ++ toString n
  else if n < 1000 then "0" ++ toString n
  else toString n

/-- `dt.strftime("%Y-%m-%dT%H:%M:%S.000Z")`. -/
def strftimeSMA (dt : PyDateTime) : String :=
  pad4 dt.year ++ "-" ++ pad2 dt.month ++ "-" ++ pad2 dt.day ++ "T" ++
    pad2 dt.hour ++ ":" ++ pad2 dt.minute ++ ":" ++ pad2 dt.second ++ ".000Z"

/-- `_parse_and_format_date` (lines 145-160): parse via `dateutil`
(which raises on an unparseable input — nothing in the connector
catches that), optionally zero minutes/seconds, and format. -/
def parseAndFormatDate (env : Env) (v : Json) (zeroMinutes zeroSeconds : Bool) :
    Except PyErr String :=
  match env.parseDate v with
  | none => .error (.valueError ("Unknown string format: " ++ pyFStr v))
  | some dt =>
    let dt := if zeroMinutes then { dt with minute := 0 } else dt
    let dt := if zeroSeconds then { dt with second := 0, microsecond := 0 } else dt
    .ok (strftimeSMA dt)

/-! ### JSON access helpers (Python attribute/key semantics) -/

/-- `j.get(k, d)`: default-returning lookup on a dict; raises
`AttributeError` on a non-dict. -/
def jGetD (j : Json) (k : String) (d : Json) : Except PyErr Json :=
  match j with
  | .obj fs => .ok ((fs.lookup k).getD d)
  | _ => .error (.attributeError ("object has no attribute get"))

/-- `j[k]`: raises `KeyError` when absent, `TypeError` on a non-dict. -/
def jKey (j : Json) (k : String) : Except PyErr Json :=
  match j with
  | .obj fs =>
    match fs.lookup k with
    | some v => .ok v
    | none => .error (.keyError k)
  | _ => .error (.typeError ("object is not subscriptable"))

/-- `j[0]`: first element of a list (or first character of a string);
raises `IndexError` when empty, `TypeError` otherwise. -/
def jIndex0 (j : Json) : Except PyErr Json :=
  match j with
  | .arr [] => .error (.indexError ("list index out of range"))
  | .arr (x :: _) => .ok x
  | .str s =>
    match s.data with
    | [] => .error (.indexError ("string index out of range"))
    | c :: _ => .ok (.str ⟨[c]⟩)
  | _ => .error (.typeError ("object is not subscriptable"))

/-- `for x in j`: the iterated elements (list elements, dict keys,
string characters); raises `TypeError` on non-iterables. -/
def jIterElems (j : Json) : Except PyErr (List Json) :=
  match j with
  | .arr l => .ok l
  | .obj fs => .ok (fs.map (fun kv => .str kv.1))
  | .str s => .ok (s.data.map (fun c => .str ⟨[c]⟩))
  | _ => .error (.typeError ("object is not iterable"))

/-- `len(j)`; raises `TypeError` on values without a length. -/
def pyLen (j : Json) : Except PyErr Nat :=
  match j with
  | .arr l => .ok l.length
  | .obj fs => .ok fs.length
  | .str s => .ok s.data.length
  | _ => .error (.typeError ("object has no len"))

/-- `response.get(k, d)` where `response` came from the authenticated
request: a parsed JSON payload supports `.get`; the raw response object
(non-JSON content) does not. -/
def pGetD (p : Payload) (k : String) (d : Json) : Except PyErr Json :=
  match p with
  | .json j => jGetD j k d
  | .raw _ => .error (.attributeError ("Response object has no attribute get"))

/-! ### `_make_rest_call` and `_make_authenticated_request` -/

/-- `_make_rest_call` at the action-result level: on a failure
classification the status and message are stored on the action result
(lines 78-115). -/
def makeRestCall (ar : ActionResult) (t : TransportResult) :
    ActionResult × Bool × Option Payload :=
  match restCallClassify t with
  | .error m => (setStatus ar false m, false, none)
  | .ok p => (ar, true, some p)

def defaultJsonHeaders : Headers :=
  [("Content-Type", "application/json"), ("Accept", "application/json")]

/-- The Authorization header value built on every authenticated call
(lines 134-136). -/
def basicAuthValue (cfg : Config) : String :=
  "Basic " ++ base64Encode (utf8Bytes (cfg.username ++ ":" ++ cfg.password))

/-- The request `_make_authenticated_request` constructs (lines
130-138): base URL + endpoint, default JSON headers when none given,
and the Basic Authorization header written into the header dict. -/
def buildAuthRequest (cfg : Config) (endpoint : String) (headers : Option Headers)
    (params : List (String × Json)) (jsonData : Option Json) (method : String) : Request :=
  let hs := headers.getD defaultJsonHeaders
  let hs := hset hs ("Authorization") (basicAuthValue cfg)
  { method := method
    url := cfg.baseUrl ++ endpoint
    headers := hs
    params := params
    jsonBody := jsonData
    verify := cfg.verify }

/-- `_make_authenticated_request` (lines 117-143): build the request,
issue it (the transport oracle is indexed by the number of previously
issued requests), classify.  The request is returned so the caller can
record it in the connector state's network log. -/
def makeAuthenticatedRequest (env : Env) (st : ConnState) (ar : ActionResult)
    (endpoint : String) (headers : Option Headers) (params : List (String × Json))
    (jsonData : Option Json) (method : String) :
    Request × ActionResult × Bool × Option Payload :=
  let req := buildAuthRequest st.cfg endpoint headers params jsonData method
  let out := makeRestCall ar (env.transport st.netLog.length req)
  (req, out)

/-! ### Handler return helpers -/

/-- Return from a handler that issued no request: append the progress
messages and the (single) action result created by the handler. -/
def ret1 (st : ConnState) (progs : List String) (ar : ActionResult)
    (r : Except PyErr Bool) : ConnState × Except PyErr Bool :=
  ({ st with progress := st.progress ++ progs, results := st.results ++ [ar] }, r)

/-- Return from a handler that issued exactly one request. -/
def ret2 (st : ConnState) (progs : List String) (req : Request) (ar : ActionResult)
    (r : Except PyErr Bool) : ConnState × Except PyErr Bool :=
  ({ st with
      progress := st.progress ++ progs
      results := st.results ++ [ar]
      netLog := st.netLog ++ [req] }, r)

/-! ### Operation handlers -/

/-- The `optional_params` population loop shared by several handlers:
only truthy parameter values are copied into the request params, in
the order the pairs are listed. -/
def addOptionalParams (param : Param) : List (String × String) → Param → Param
  | [], ps => ps
  | kv :: rest, ps =>
    addOptionalParams param rest
      (match pget param kv.1 with
       | some v => if v.truthy then pset ps kv.2 v else ps
       | none => ps)

def msgDatesRequired : String :=
  "Both \x27start_date\x27 and \x27end_date\x27 parameters are required"

def msgInvalidOrderBy : String :=
  "Invalid \x27order_by\x27 parameter. Must be one of: " ++ listReprPy CISCOSMA_VALID_ORDER_BY

def msgInvalidOrderDirection : String :=
  "Invalid \x27order_direction\x27 parameter. Must be one of: " ++
    listReprPy CISCOSMA_VALID_ORDER_DIRECTIONS

def msgInvalidEnvRecipOp : String :=
  "Invalid \x27envelope_recipient_filter_operator\x27 parameter. Must be one of: " ++
    listReprPy CISCOSMA_VALID_FILTER_OPERATORS

def msgInvalidFilterOp : String :=
  "Invalid \x27filter_operator\x27 parameter. Must be one of: " ++
    listReprPy CISCOSMA_VALID_FILTER_OPERATORS

def msgMessageIdRequired : String := "Parameter \x27message_id\x27 is required"

def msgMessageIdInt : String := "Parameter \x27message_id\x27 must be a valid integer"

def parseErrMsg (e : PyErr) : String := "Error parsing response: " ++ e.text

/-- `_handle_test_connectivity` (lines 326-339). -/
def handleTestConnectivity (env : Env) (st : ConnState) (param : Param) :
    ConnState × Except PyErr Bool :=
  let p1 := "Connecting to Cisco SMA..."
  let ar := ActionResult.init param
  match makeAuthenticatedRequest env st ar CISCOSMA_GET_SUBSCRIPTION_ENDPOINT none [] none ("get") with
  | (req, ar, false, _) => ret2 st [p1, "Test Connectivity Failed"] req ar (.ok ar.status)
  | (req, ar, true, _) =>
    ret2 st [p1, "Test Connectivity Passed"] req (setStatus ar true "") (.ok true)

def searchSpamOptionalParams : List (String × String) :=
  [("order_by", "orderBy"), ("order_direction", "orderDir"),
   ("envelope_recipient_filter_operator", "envelopeRecipientFilterOperator"),
   ("envelope_recipient_filter_value", "envelopeRecipientFilterValue"),
   ("filter_by", "filterBy"), ("filter_operator", "filterOperator"),
   ("filter_value", "filterValue")]

/-- Response mapping of `_handle_search_spam_quarantine_messages`
(lines 401-412), inside the handler's try/except. -/
def mapSearchSpam (p : Payload) (ar : ActionResult) : Except PyErr ActionResult := do
  let data ← pGetD p ("data") (.arr [])
  let meta ← pGetD p ("meta") (.obj [])
  let tc ← jGetD meta ("totalCount") (.num 0)
  let elems ← jIterElems data
  let ar := elems.foldl addData ar
  let n ← pyLen data
  pure (updateSummary ar (.obj [("total_messages", tc), ("messages_returned", .num n)]))

/-- `_handle_search_spam_quarantine_messages` (lines 341-416). -/
def handleSearchSpamQuarantineMessages (env : Env) (st : ConnState) (param : Param) :
    ConnState × Except PyErr Bool :=
  let p1 := "Searching for spam quarantine messages..."
  let ar := ActionResult.init param
  if !truthyO (pget param ("start_date")) || !truthyO (pget param ("end_date")) then
    ret1 st [p1] (setStatus ar false msgDatesRequired) (.ok false)
  else
    match parseAndFormatDate env (pgetD param ("start_date") .null) false true with
    | .error e => ret1 st [p1] ar (.error e)
    | .ok sd =>
    match parseAndFormatDate env (pgetD param ("end_date") .null) false true with
    | .error e => ret1 st [p1] ar (.error e)
    | .ok ed =>
    let ps : Param := [("startDate", .str sd), ("endDate", .str ed),
      ("quarantineType", .str ("spam")),
      ("offset", pgetD param ("offset") (.num CISCOSMA_DEFAULT_LIST_OFFSET)),
      ("limit", pgetD param ("limit") (.num CISCOSMA_DEFAULT_LIST_LIMIT))]
    let ps := addOptionalParams param searchSpamOptionalParams ps
    if truthyO (pget ps ("orderBy")) &&
        !inValidList (pgetD ps ("orderBy") .null) CISCOSMA_VALID_ORDER_BY then
      ret1 st [p1] (setStatus ar false msgInvalidOrderBy) (.ok false)
    else if truthyO (pget ps ("orderDir")) &&
        !inValidList (pgetD ps ("orderDir") .null) CISCOSMA_VALID_ORDER_DIRECTIONS then
      ret1 st [p1] (setStatus ar false msgInvalidOrderDirection) (.ok false)
    else if truthyO (pget ps ("envelopeRecipientFilterOperator")) &&
        !inValidList (pgetD ps ("envelopeRecipientFilterOperator") .null)
          CISCOSMA_VALID_FILTER_OPERATORS then
      ret1 st [p1] (setStatus ar false msgInvalidEnvRecipOp) (.ok false)
    else if truthyO (pget ps ("filterOperator")) &&
        !inValidList (pgetD ps ("filterOperator") .null) CISCOSMA_VALID_FILTER_OPERATORS then
      ret1 st [p1] (setStatus ar false msgInvalidFilterOp) (.ok false)
    else
      match makeAuthenticatedRequest env st ar CISCOSMA_SEARCH_MESSAGES_ENDPOINT none ps none ("get") with
      | (req, ar, false, _) => ret2 st [p1] req ar (.ok ar.status)
      | (req, ar, true, pl) =>
        match mapSearchSpam (pl.getD (.json .null)) ar with
        | .error e => ret2 st [p1] req (setStatus ar false (parseErrMsg e)) (.ok false)
        | .ok ar2 =>
          ret2 st [p1, "Successfully completed search_spam_quarantine_messages"] req
            (setStatus ar2 true ("Successfully retrieved messages")) (.ok true)

def searchGeneralOptionalParams : List (String × String) :=
  [("subject_filter_by", "subjectFilterBy"), ("subject_filter_value", "subjectFilterValue"),
   ("originating_esa_ip", "originatingEsaIp"), ("attachment_name", "attachmentName"),
   ("attachment_size_filter_by", "attachmentSizeFilterBy"),
   ("attachment_size_from", "attachmentSizeFromValue"),
   ("attachment_size_to", "attachmentSizeToValue"),
   ("order_by", "orderBy"), ("order_direction", "orderDir"),
   ("envelope_recipient_filter_by", "envelopeRecipientFilterBy"),
   ("envelope_recipient_filter_value", "envelopeRecipientFilterValue"),
   ("envelope_sender_filter_by", "envelopeSenderFilterBy"),
   ("envelope_sender_filter_value", "envelopeSenderFilterValue")]

/-- Response mapping of `_handle_search_general_quarantine_messages`
(lines 486-497). -/
def mapSearchGeneral (p : Payload) (quarantines : Json) (ar : ActionResult) :
    Except PyErr ActionResult := do
  let data ← pGetD p ("data") (.arr [])
  let meta ← pGetD p ("meta") (.obj [])
  let tc ← jGetD meta ("totalCount") (.num 0)
  let elems ← jIterElems data
  let ar := elems.foldl addData ar
  let n ← pyLen data
  pure (updateSummary ar (.obj
    [("total_messages", tc), ("messages_returned", .num n), ("quarantines", quarantines)]))

/-- `_handle_search_general_quarantine_messages` (lines 418-501). -/
def handleSearchGeneralQuarantineMessages (env : Env) (st : ConnState) (param : Param) :
    ConnState × Except PyErr Bool :=
  let p1 := "Searching for general quarantine messages..."
  let ar := ActionResult.init param
  if !truthyO (pget param ("start_date")) || !truthyO (pget param ("end_date")) then
    ret1 st [p1] (setStatus ar false msgDatesRequired) (.ok false)
  else
    match parseAndFormatDate env (pgetD param ("start_date") .null) false true with
    | .error e => ret1 st [p1] ar (.error e)
    | .ok sd =>
    match parseAndFormatDate env (pgetD param ("end_date") .null) false true with
    | .error e => ret1 st [p1] ar (.error e)
    | .ok ed =>
    let ps : Param := [("startDate", .str sd), ("endDate", .str ed),
      ("quarantineType", .str ("pvo")),
      ("offset", pgetD param ("offset") (.num CISCOSMA_DEFAULT_LIST_OFFSET)),
      ("limit", pgetD param ("limit") (.num CISCOSMA_DEFAULT_LIST_LIMIT))]
    if !truthyO (pget param ("quarantines")) then
      ret1 st [p1] (setStatus ar false ("Parameter \x27quarantines\x27 is required")) (.ok false)
    else
    let quarantines := pgetD param ("quarantines") .null
    let ps := pset ps ("quarantines") quarantines
    let ps := addOptionalParams param searchGeneralOptionalParams ps
    if truthyO (pget ps ("subjectFilterBy")) &&
        !inValidList (pgetD ps ("subjectFilterBy") .null) CISCOSMA_VALID_SUBJECT_FILTERS then
      ret1 st [p1] (setStatus ar false
        ("Invalid subject_filter_by. Must be one of: " ++
          listReprPy CISCOSMA_VALID_SUBJECT_FILTERS)) (.ok false)
    else if truthyO (pget ps ("attachmentSizeFilterBy")) &&
        !inValidList (pgetD ps ("attachmentSizeFilterBy") .null) CISCOSMA_VALID_SIZE_FILTERS then
      ret1 st [p1] (setStatus ar false
        ("Invalid attachment_size_filter_by. Must be one of: " ++
          listReprPy CISCOSMA_VALID_SIZE_FILTERS)) (.ok false)
    else if truthyO (pget ps ("orderBy")) &&
        !inValidList (pgetD ps ("orderBy") .null) CISCOSMA_VALID_QUARANTINE_ORDER_BY then
      ret1 st [p1] (setStatus ar false
        ("Invalid order_by. Must be one of: " ++
          listReprPy CISCOSMA_VALID_QUARANTINE_ORDER_BY)) (.ok false)
    else if truthyO (pget ps ("orderDir")) &&
        !inValidList (pgetD ps ("orderDir") .null) CISCOSMA_VALID_ORDER_DIRECTIONS then
      ret1 st [p1] (setStatus ar false
        ("Invalid order_direction. Must be one of: " ++
          listReprPy CISCOSMA_VALID_ORDER_DIRECTIONS)) (.ok false)
    else
      match makeAuthenticatedRequest env st ar CISCOSMA_SEARCH_MESSAGES_ENDPOINT none ps none ("get") with
      | (req, ar, false, _) => ret2 st [p1] req ar (.ok ar.status)
      | (req, ar, true, pl) =>
        match mapSearchGeneral (pl.getD (.json .null)) quarantines ar with
        | .error e => ret2 st [p1] req (setStatus ar false (parseErrMsg e)) (.ok false)
        | .ok ar2 =>
          ret2 st [p1, "Successfully completed search_general_quarantine_messages"] req
            (setStatus ar2 true ("Successfully retrieved quarantine messages")) (.ok true)

def trackingFilterPairs : List ((String × String) × (String × String)) :=
  [(("sender_filter_operator", "sender_filter_value"),
    ("envelopeSenderfilterOperator", "envelopeSenderfilterValue")),
   (("recipient_filter_operator", "recipient_filter_value"),
    ("envelopeRecipientfilterOperator", "envelopeRecipientfilterValue")),
   (("subject_filter_operator", "subject_filter_value"),
    ("subjectfilterOperator", "subjectfilterValue")),
   (("attachment_name_operator", "attachment_name_value"),
    ("attachmentNameOperator", "attachmentNameValue"))]

/-- The filter-pair loop of `_handle_search_tracking_messages` (lines
754-768): each operator/value pair must be supplied together. -/
def applyFilterPairs (param : Param) :
    List ((String × String) × (String × String)) → Param → Except String Param
  | [], ps => .ok ps
  | (names, apis) :: rest, ps =>
    let op := pget param names.1
    let v := pget param names.2
    if truthyO op && truthyO v then
      applyFilterPairs param rest (pset (pset ps apis.1 (op.getD .null)) apis.2 (v.getD .null))
    else if truthyO op || truthyO v then
      .error ("Both " ++ names.1 ++ " and " ++ names.2 ++ " must be provided together")
    else applyFilterPairs param rest ps

def trackingOptionalParams : List (String × String) :=
  [("cisco_host", "ciscoHost"), ("sender_ip", "senderIp"),
   ("file_sha_256", "fileSha256"), ("message_id_header", "messageIdHeader")]

/-- Response mapping of `_handle_search_tracking_messages` (lines
786-798). -/
def mapSearchTracking (p : Payload) (ar : ActionResult) : Except PyErr ActionResult := do
  let data ← pGetD p ("data") (.arr [])
  let meta ← pGetD p ("meta") (.obj [])
  let tc ← jGetD meta ("totalCount") (.num 0)
  let meta2 ← pGetD p ("meta") (.obj [])
  let bad ← jGetD meta2 ("num_bad_records") (.num 0)
  let elems ← jIterElems data
  let ar := elems.foldl addData ar
  let n ← pyLen data
  pure (updateSummary ar (.obj
    [("total_messages", tc), ("messages_returned", .num n), ("bad_records", bad)]))

/-- `_handle_search_tracking_messages` (lines 734-802). -/
def handleSearchTrackingMessages (env : Env) (st : ConnState) (param : Param) :
    ConnState × Except PyErr Bool :=
  let p1 := "Searching for tracking messages..."
  let ar := ActionResult.init param
  if !truthyO (pget param ("start_date")) || !truthyO (pget param ("end_date")) then
    ret1 st [p1] (setStatus ar false msgDatesRequired) (.ok false)
  else
    match parseAndFormatDate env (pgetD param ("start_date") .null) false true with
    | .error e => ret1 st [p1] ar (.error e)
    | .ok sd =>
    match parseAndFormatDate env (pgetD param ("end_date") .null) false true with
    | .error e => ret1 st [p1] ar (.error e)
    | .ok ed =>
    let ps : Param := [("startDate", .str sd), ("endDate", .str ed),
      ("searchOption", pgetD param ("search_option") (.str ("messages"))),
      ("offset", pgetD param ("offset") (.num CISCOSMA_DEFAULT_LIST_OFFSET)),
      ("limit", pgetD param ("limit") (.num CISCOSMA_DEFAULT_LIST_LIMIT))]
    match applyFilterPairs param trackingFilterPairs ps with
    | .error m => ret1 st [p1] (setStatus ar false m) (.ok false)
    | .ok ps =>
    let ps := addOptionalParams param trackingOptionalParams ps
    match makeAuthenticatedRequest env st ar CISCOSMA_SEARCH_TRACKING_MESSAGES_ENDPOINT none ps none ("get") with
    | (req, ar, false, _) => ret2 st [p1] req ar (.ok ar.status)
    | (req, ar, true, pl) =>
      match mapSearchTracking (pl.getD (.json .null)) ar with
      | .error e => ret2 st [p1] req (setStatus ar false (parseErrMsg e)) (.ok false)
      | .ok ar2 =>
        ret2 st [p1, "Successfully completed search_tracking_messages"] req
          (setStatus ar2 true ("Successfully retrieved tracking messages")) (.ok true)

/-- Response mapping of `_handle_get_spam_quarantine_message_details`
(lines 520-528). -/
def mapGetSpamDetails (p : Payload) (ar : ActionResult) : Except PyErr ActionResult := do
  let data ← pGetD p ("data") (.obj [])
  let ar := addData ar data
  let attrs ← jGetD data ("attributes") (.obj [])
  let subj ← jGetD attrs ("subject") .null
  pure (updateSummary ar (.obj [("subject", subj)]))

/-- `_handle_get_spam_quarantine_message_details` (lines 503-532). -/
def handleGetSpamQuarantineMessageDetails (env : Env) (st : ConnState) (param : Param) :
    ConnState × Except PyErr Bool :=
  let p1 := "Getting details for spam quarantine message..."
  let ar := ActionResult.init param
  if !truthyO (pget param ("message_id")) then
    ret1 st [p1] (setStatus ar false msgMessageIdRequired) (.ok false)
  else
    let ps : Param := [("mid", pgetD param ("message_id") .null),
      ("quarantineType", .str ("spam"))]
    match makeAuthenticatedRequest env st ar CISCOSMA_GET_MESSAGE_DETAILS_ENDPOINT none ps none ("get") with
    | (req, ar, false, _) => ret2 st [p1] req ar (.ok ar.status)
    | (req, ar, true, pl) =>
      match mapGetSpamDetails (pl.getD (.json .null)) ar with
      | .error e => ret2 st [p1] req (setStatus ar false (parseErrMsg e)) (.ok false)
      | .ok ar2 =>
        ret2 st [p1, "Successfully completed get_spam_quarantine_message_details"] req
          (setStatus ar2 true ("Successfully retrieved message details")) (.ok true)

/-- Response mapping of `_handle_get_general_quarantine_message_details`
(lines 551-567). -/
def mapGetGeneralDetails (p : Payload) (ar : ActionResult) : Except PyErr ActionResult := do
  let data ← pGetD p ("data") (.obj [])
  let ar := addData ar data
  let attrs ← jGetD data ("attributes") (.obj [])
  let msgDetails ← jGetD attrs ("messageDetails") (.obj [])
  let qdList ← jGetD attrs ("quarantineDetails") (.arr [.obj []])
  let qd ← jIndex0 qdList
  let subj ← jGetD msgDetails ("subject") .null
  let qname ← jGetD qd ("quarantineName") .null
  let reason ← jGetD qd ("reason") (.arr [])
  pure (updateSummary ar (.obj
    [("subject", subj), ("quarantine_name", qname), ("reason", reason)]))

/-- `_handle_get_general_quarantine_message_details` (lines 534-571). -/
def handleGetGeneralQuarantineMessageDetails (env : Env) (st : ConnState) (param : Param) :
    ConnState × Except PyErr Bool :=
  let p1 := "Getting details for general quarantine message..."
  let ar := ActionResult.init param
  if !truthyO (pget param ("message_id")) then
    ret1 st [p1] (setStatus ar false msgMessageIdRequired) (.ok false)
  else
    let ps : Param := [("mid", pgetD param ("message_id") .null),
      ("quarantineType", .str ("pvo"))]
    match makeAuthenticatedRequest env st ar CISCOSMA_GET_MESSAGE_DETAILS_ENDPOINT none ps none ("get") with
    | (req, ar, false, _) => ret2 st [p1] req ar (.ok ar.status)
    | (req, ar, true, pl) =>
      match mapGetGeneralDetails (pl.getD (.json .null)) ar with
      | .error e => ret2 st [p1] req (setStatus ar false (parseErrMsg e)) (.ok false)
      | .ok ar2 =>
        ret2 st [p1, "Successfully completed get_general_quarantine_message_details"] req
          (setStatus ar2 true ("Successfully retrieved general quarantine message details")) (.ok true)

/-- Response mapping of `_handle_release_spam_message` (lines 594-602). -/
def mapReleaseSpam (p : Payload) (ar : ActionResult) : Except PyErr ActionResult := do
  let data ← pGetD p ("data") (.obj [])
  let ar := addData ar data
  let tc ← jGetD data ("totalCount") (.num 0)
  let act ← jGetD data ("action") .null
  pure (updateSummary ar (.obj [("total_released", tc), ("action", act)]))

/-- `_handle_release_spam_message` (lines 573-606). -/
def handleReleaseSpamMessage (env : Env) (st : ConnState) (param : Param) :
    ConnState × Except PyErr Bool :=
  let p1 := "Releasing spam message..."
  let ar := ActionResult.init param
  if !truthyO (pget param ("message_id")) then
    ret1 st [p1] (setStatus ar false msgMessageIdRequired) (.ok false)
  else
    match pyToInt (pgetD param ("message_id") .null) with
    | .error (.valueError _) => ret1 st [p1] (setStatus ar false msgMessageIdInt) (.ok false)
    | .error e => ret1 st [p1] ar (.error e)
    | .ok mid =>
      let payload : Json := .obj [("action", .str ("release")),
        ("quarantineType", .str ("spam")), ("mids", .arr [.num mid])]
      match makeAuthenticatedRequest env st ar CISCOSMA_RELEASE_MESSAGES_ENDPOINT none [] (some payload) ("post") with
      | (req, ar, false, _) => ret2 st [p1] req ar (.ok ar.status)
      | (req, ar, true, pl) =>
        match mapReleaseSpam (pl.getD (.json .null)) ar with
        | .error e => ret2 st [p1] req (setStatus ar false (parseErrMsg e)) (.ok false)
        | .ok ar2 =>
          ret2 st [p1, "Successfully completed release_spam_message"] req
            (setStatus ar2 true ("Successfully released message")) (.ok true)

/-- Response mapping of `_handle_release_general_quarantine_message`
(lines 633-645). -/
def mapReleaseGeneral (p : Payload) (quarantineName : Json) (ar : ActionResult) :
    Except PyErr ActionResult := do
  let data ← pGetD p ("data") (.obj [])
  let ar := addData ar data
  let tc ← jGetD data ("totalCount") (.num 0)
  let act ← jGetD data ("action") .null
  pure (updateSummary ar (.obj
    [("total_released", tc), ("action", act), ("quarantine_name", quarantineName)]))

/-- `_handle_release_general_quarantine_message` (lines 608-649). -/
def handleReleaseGeneralQuarantineMessage (env : Env) (st : ConnState) (param : Param) :
    ConnState × Except PyErr Bool :=
  let p1 := "Releasing general quarantine message..."
  let ar := ActionResult.init param
  if !truthyO (pget param ("message_id")) then
    ret1 st [p1] (setStatus ar false msgMessageIdRequired) (.ok false)
  else if !truthyO (pget param ("quarantine_name")) then
    ret1 st [p1] (setStatus ar false ("Parameter \x27quarantine_name\x27 is required")) (.ok false)
  else
    match pyToInt (pgetD param ("message_id") .null) with
    | .error (.valueError _) => ret1 st [p1] (setStatus ar false msgMessageIdInt) (.ok false)
    | .error e => ret1 st [p1] ar (.error e)
    | .ok mid =>
      let qname := pgetD param ("quarantine_name") .null
      let payload : Json := .obj [("action", .str ("release")),
        ("quarantineType", .str ("pvo")), ("quarantineName", qname),
        ("mids", .arr [.num mid])]
      match makeAuthenticatedRequest env st ar CISCOSMA_RELEASE_MESSAGES_ENDPOINT none [] (some payload) ("post") with
      | (req, ar, false, _) => ret2 st [p1] req ar (.ok ar.status)
      | (req, ar, true, pl) =>
        match mapReleaseGeneral (pl.getD (.json .null)) qname ar with
        | .error e => ret2 st [p1] req (setStatus ar false (parseErrMsg e)) (.ok false)
        | .ok ar2 =>
          ret2 st [p1, "Successfully completed release_general_quarantine_message"] req
            (setStatus ar2 true ("Successfully released message from general quarantine")) (.ok true)

/-- Response mapping of `_handle_delete_spam_message` (lines 674-682). -/
def mapDeleteSpam (p : Payload) (ar : ActionResult) : Except PyErr ActionResult := do
  let data ← pGetD p ("data") (.obj [])
  let ar := addData ar data
  let tc ← jGetD data ("totalCount") (.num 0)
  let act ← jGetD data ("action") .null
  pure (updateSummary ar (.obj [("total_deleted", tc), ("action", act)]))

/-- `_handle_delete_spam_message` (lines 651-686). -/
def handleDeleteSpamMessage (env : Env) (st : ConnState) (param : Param) :
    ConnState × Except PyErr Bool :=
  let p1 := "Deleting spam message..."
  let ar := ActionResult.init param
  if !truthyO (pget param ("message_id")) then
    ret1 st [p1] (setStatus ar false msgMessageIdRequired) (.ok false)
  else
    match pyToInt (pgetD param ("message_id") .null) with
    | .error (.valueError _) => ret1 st [p1] (setStatus ar false msgMessageIdInt) (.ok false)
    | .error e => ret1 st [p1] ar (.error e)
    | .ok mid =>
      let payload : Json := .obj [("quarantineType", .str ("spam")), ("mids", .arr [.num mid])]
      match makeAuthenticatedRequest env st ar CISCOSMA_DELETE_MESSAGES_ENDPOINT none [] (some payload) ("delete") with
      | (req, ar, false, _) => ret2 st [p1] req ar (.ok ar.status)
      | (req, ar, true, pl) =>
        match mapDeleteSpam (pl.getD (.json .null)) ar with
        | .error e => ret2 st [p1] req (setStatus ar false (parseErrMsg e)) (.ok false)
        | .ok ar2 =>
          ret2 st [p1, "Successfully completed delete_spam_message"] req
            (setStatus ar2 true ("Successfully deleted message")) (.ok true)

/-- Response mapping of `_handle_delete_general_quarantine_message`
(lines 716-728). -/
def mapDeleteGeneral (p : Payload) (quarantineName : Json) (ar : ActionResult) :
    Except PyErr ActionResult := do
  let data ← pGetD p ("data") (.obj [])
  let ar := addData ar data
  let tc ← jGetD data ("totalCount") (.num 0)
  let act ← jGetD data ("action") .null
  pure (updateSummary ar (.obj
    [("total_deleted", tc), ("action", act), ("quarantine_name", quarantineName)]))

/-- `_handle_delete_general_quarantine_message` (lines 688-732). -/
def handleDeleteGeneralQuarantineMessage (env : Env) (st : ConnState) (param : Param) :
    ConnState × Except PyErr Bool :=
  let p1 := "Deleting general quarantine message..."
  let ar := ActionResult.init param
  if !truthyO (pget param ("message_id")) then
    ret1 st [p1] (setStatus ar false msgMessageIdRequired) (.ok false)
  else if !truthyO (pget param ("quarantine_name")) then
    ret1 st [p1] (setStatus ar false ("Parameter \x27quarantine_name\x27 is required")) (.ok false)
  else
    match pyToInt (pgetD param ("message_id") .null) with
    | .error (.valueError _) => ret1 st [p1] (setStatus ar false msgMessageIdInt) (.ok false)
    | .error e => ret1 st [p1] ar (.error e)
    | .ok mid =>
      let qname := pgetD param ("quarantine_name") .null
      let payload : Json := .obj [("quarantineType", .str ("pvo")),
        ("quarantineName", qname), ("mids", .arr [.num mid])]
      match makeAuthenticatedRequest env st ar CISCOSMA_DELETE_MESSAGES_ENDPOINT none [] (some payload) ("delete") with
      | (req, ar, false, _) => ret2 st [p1] req ar (.ok ar.status)
      | (req, ar, true, pl) =>
        match mapDeleteGeneral (pl.getD (.json .null)) qname ar with
        | .error e => ret2 st [p1] req (setStatus ar false (parseErrMsg e)) (.ok false)
        | .ok ar2 =>
          ret2 st [p1, "Successfully completed delete_general_quarantine_message"] req
            (setStatus ar2 true ("Successfully deleted message from general quarantine")) (.ok true)

/-- Response mapping of `_handle_get_message_tracking_details` (lines
839-851). -/
def mapTrackingDetails (p : Payload) (ar : ActionResult) : Except PyErr ActionResult := do
  let data ← pGetD p ("data") (.obj [])
  let msg ← jGetD data ("messages") (.obj [])
  let ar := addData ar msg
  let subj ← jGetD msg ("subject") .null
  let stat ← jGetD msg ("messageStatus") .null
  let dir ← jGetD msg ("direction") .null
  pure (updateSummary ar (.obj [("subject", subj), ("status", stat), ("direction", dir)]))

def trackingDetailsOptionalParams : List (String × String) :=
  [("icid", "icid"), ("start_date", "startDate"), ("end_date", "endDate")]

/-- `_handle_get_message_tracking_details` (lines 804-855).  Note the
source mutates the parameter dict in place when reformatting the
optional dates; the action result holds the copy taken beforehand. -/
def handleGetMessageTrackingDetails (env : Env) (st : ConnState) (param : Param) :
    ConnState × Except PyErr Bool :=
  let p1 := "Getting details for tracking message..."
  let ar := ActionResult.init param
  if !truthyO (pget param ("message_id")) then
    ret1 st [p1] (setStatus ar false msgMessageIdRequired) (.ok false)
  else if !truthyO (pget param ("serial_number")) then
    ret1 st [p1] (setStatus ar false ("Parameter \x27serial_number\x27 is required")) (.ok false)
  else
    match pyToInt (pgetD param ("message_id") .null) with
    | .error (.valueError _) => ret1 st [p1] (setStatus ar false msgMessageIdInt) (.ok false)
    | .error e => ret1 st [p1] ar (.error e)
    | .ok mid =>
    let step1 : Except PyErr Param :=
      if truthyO (pget param ("start_date")) then
        match parseAndFormatDate env (pgetD param ("start_date") .null) false true with
        | .error e => .error e
        | .ok d => .ok (pset param ("start_date") (.str d))
      else .ok param
    match step1 with
    | .error e => ret1 st [p1] ar (.error e)
    | .ok param2 =>
    let step2 : Except PyErr Param :=
      if truthyO (pget param2 ("end_date")) then
        match parseAndFormatDate env (pgetD param2 ("end_date") .null) false true with
        | .error e => .error e
        | .ok d => .ok (pset param2 ("end_date") (.str d))
      else .ok param2
    match step2 with
    | .error e => ret1 st [p1] ar (.error e)
    | .ok param2 =>
    let ps : Param := [("mid", .num mid),
      ("serialNumber", pgetD param2 ("serial_number") .null)]
    let ps := addOptionalParams param2 trackingDetailsOptionalParams ps
    match makeAuthenticatedRequest env st ar CISCOSMA_GET_MESSAGE_TRACKING_DETAILS_ENDPOINT none ps none ("get") with
    | (req, ar, false, _) => ret2 st [p1] req ar (.ok ar.status)
    | (req, ar, true, pl) =>
      match mapTrackingDetails (pl.getD (.json .null)) ar with
      | .error e => ret2 st [p1] req (setStatus ar false (parseErrMsg e)) (.ok false)
      | .ok ar2 =>
        ret2 st [p1, "Successfully completed get_message_tracking_details"] req
          (setStatus ar2 true ("Successfully retrieved message tracking details")) (.ok true)

/-- Response mapping of `_handle_search_list` (lines 903-914). -/
def mapSearchList (p : Payload) (listType : String) (ar : ActionResult) :
    Except PyErr ActionResult := do
  let data ← pGetD p ("data") (.arr [])
  let meta ← pGetD p ("meta") (.obj [])
  let tc ← jGetD meta ("totalCount") (.num 0)
  let elems ← jIterElems data
  let ar := elems.foldl addData ar
  let n ← pyLen data
  pure (updateSummary ar (.obj
    [("total_entries", tc), ("entries_returned", .num n), ("list_type", .str listType)]))

/-- `_handle_search_list` (lines 857-918). -/
def handleSearchList (env : Env) (st : ConnState) (param : Param) :
    ConnState × Except PyErr Bool :=
  let p1 := "Searching for list entries..."
  let ar := ActionResult.init param
  match pyLower (pgetD param ("list_type") (.str ("safelist"))) with
  | .error e => ret1 st [p1] ar (.error e)
  | .ok listType =>
  if !(CISCOSMA_VALID_LIST_TYPES.contains listType) then
    ret1 st [p1] (setStatus ar false
      ("Invalid parameter \x27list_type\x27. Must be one of: " ++
        listReprPy CISCOSMA_VALID_LIST_TYPES)) (.ok false)
  else
  let endpoint := if listType == "safelist" then CISCOSMA_SAFELIST_ENDPOINT
    else CISCOSMA_BLOCKLIST_ENDPOINT
  let ps : Param := [("action", .str ("view")), ("quarantineType", .str ("spam"))]
  let viewBy := pgetD param ("view_by") (.str ("recipient"))
  if !inValidList viewBy CISCOSMA_VALID_LIST_VIEW_BY then
    ret1 st [p1] (setStatus ar false
      ("Invalid parameter \x27view_by\x27. Must be one of: " ++
        listReprPy CISCOSMA_VALID_LIST_VIEW_BY)) (.ok false)
  else
  let ps := pset ps ("viewBy") viewBy
  let orderBy := pgetD param ("order_by") (.str ("recipient"))
  if !inValidList orderBy CISCOSMA_VALID_LIST_ORDER_BY then
    ret1 st [p1] (setStatus ar false
      ("Invalid parameter \x27order_by\x27. Must be one of: " ++
        listReprPy CISCOSMA_VALID_LIST_ORDER_BY)) (.ok false)
  else
  let ps := pset ps ("orderBy") orderBy
  let orderDir := pgetD param ("order_direction") (.str ("desc"))
  if !inValidList orderDir CISCOSMA_VALID_ORDER_DIRECTIONS then
    ret1 st [p1] (setStatus ar false
      ("Invalid parameter \x27order_direction\x27. Must be one of: " ++
        listReprPy CISCOSMA_VALID_ORDER_DIRECTIONS)) (.ok false)
  else
  let ps := pset ps ("orderDir") orderDir
  let ps := pset ps ("offset") (pgetD param ("offset") (.num CISCOSMA_DEFAULT_LIST_OFFSET))
  let ps := pset ps ("limit") (pgetD param ("limit") (.num CISCOSMA_DEFAULT_LIST_LIMIT))
  let search := pget param ("search")
  if truthyO search && jNeqStr orderBy ("recipient") then
    ret1 st [p1] (setStatus ar false
      ("Search parameter is only supported when order_by is set to \x27recipient\x27")) (.ok false)
  else
  let ps := if truthyO search then pset ps ("search") (search.getD .null) else ps
  match makeAuthenticatedRequest env st ar endpoint none ps none ("get") with
  | (req, ar, false, _) => ret2 st [p1] req ar (.ok ar.status)
  | (req, ar, true, pl) =>
    match mapSearchList (pl.getD (.json .null)) listType ar with
    | .error e => ret2 st [p1] req (setStatus ar false (parseErrMsg e)) (.ok false)
    | .ok ar2 =>
      ret2 st [p1, "Successfully completed search_list"] req
        (setStatus ar2 true ("Successfully retrieved " ++ listType ++ " entries")) (.ok true)

/-- Outcome of `_list_entry_operation_setup`: a raised exception, a
validation failure already recorded on the action result (the source
returns `(action_result, None, None)`), or the payload and endpoint. -/
inductive SetupOut where
  | raised (e : PyErr)
  | invalid
  | ok (payload : Json) (endpoint : String)

/-- The connector's conversion of a comma-separated string parameter;
non-string values pass through unchanged (lines 268-269 etc.). -/
def convListParam (v : Json) : Json :=
  match v with
  | .str s => .arr ((splitTrim s).map Json.str)
  | v => v

/-- `_list_entry_operation_setup` (lines 232-324). -/
def listEntryOperationSetup (param : Param) (action : String) : ActionResult × SetupOut :=
  let ar := ActionResult.init param
  match pyLower (pgetD param ("list_type") (.str ("safelist"))) with
  | .error e => (ar, .raised e)
  | .ok listType =>
  if !(CISCOSMA_VALID_LIST_TYPES.contains listType) then
    (setStatus ar false
      ("Invalid parameter \x27list_type\x27. Must be one of: " ++
        listReprPy CISCOSMA_VALID_LIST_TYPES), .invalid)
  else
  let viewBy := pgetD param ("view_by") (.str ("recipient"))
  if !inValidList viewBy CISCOSMA_VALID_LIST_VIEW_BY then
    (setStatus ar false
      ("Invalid parameter \x27view_by\x27. Must be one of: " ++
        listReprPy CISCOSMA_VALID_LIST_VIEW_BY), .invalid)
  else
  let base : List (String × Json) :=
    [("quarantineType", .str ("spam")), ("viewBy", viewBy)]
  let base := if action != "delete" then base ++ [("action", .str action)] else base
  let endpoint := if listType == "safelist" then CISCOSMA_SAFELIST_ENDPOINT
    else CISCOSMA_BLOCKLIST_ENDPOINT
  if jEqStr viewBy ("recipient") then
    if action == "delete" then
      if !truthyO (pget param ("recipient_list")) then
        (setStatus ar false
          ("Parameter \x27recipient_list\x27 is required when view_by is \x27recipient\x27"),
          .invalid)
      else
        (ar, .ok (.obj (base ++
          [("recipientList", convListParam (pgetD param ("recipient_list") .null))])) endpoint)
    else
      if !truthyO (pget param ("recipient_addresses")) then
        (setStatus ar false
          ("Parameter \x27recipient_addresses\x27 is required when view_by is \x27recipient\x27"),
          .invalid)
      else if !truthyO (pget param ("sender_list")) then
        (setStatus ar false
          ("Parameter \x27sender_list\x27 is required when view_by is \x27recipient\x27"),
          .invalid)
      else
        (ar, .ok (.obj (base ++
          [("recipientAddresses", convListParam (pgetD param ("recipient_addresses") .null)),
           ("senderList", convListParam (pgetD param ("sender_list") .null))])) endpoint)
  else
    if action == "delete" then
      if !truthyO (pget param ("sender_list")) then
        (setStatus ar false
          ("Parameter \x27sender_list\x27 is required when view_by is \x27sender\x27"),
          .invalid)
      else
        (ar, .ok (.obj (base ++
          [("senderList", convListParam (pgetD param ("sender_list") .null))])) endpoint)
    else
      if !truthyO (pget param ("sender_addresses")) then
        (setStatus ar false
          ("Parameter \x27sender_addresses\x27 is required when view_by is \x27sender\x27"),
          .invalid)
      else if !truthyO (pget param ("recipient_list")) then
        (setStatus ar false
          ("Parameter \x27recipient_list\x27 is required when view_by is \x27sender\x27"),
          .invalid)
      else
        (ar, .ok (.obj (base ++
          [("senderAddresses", convListParam (pgetD param ("sender_addresses") .null)),
           ("recipientList", convListParam (pgetD param ("recipient_list") .null))])) endpoint)

/-- `summary["list_type"]` discriminator used by the three list-entry
handlers: safelist when the safelist endpoint is a substring of the
target endpoint. -/
def listTypeOfEndpoint (endpoint : String) : String :=
  if containsSubstr CISCOSMA_SAFELIST_ENDPOINT endpoint then "safelist" else "blocklist"

/-- Response mapping of `_handle_add_list_entry` /
`_handle_edit_list_entry` (lines 932-940 / 961-969). -/
def mapAddEditListEntry (p : Payload) (payload : Json) (endpoint : String)
    (ar : ActionResult) : Except PyErr ActionResult := do
  let data ← pGetD p ("data") (.obj [])
  let ar := addData ar data
  let viewBy ← jKey payload ("viewBy")
  pure (updateSummary ar (.obj
    [("list_type", .str (listTypeOfEndpoint endpoint)), ("view_by", viewBy),
     ("status", .str ("success"))]))

/-- `_handle_add_list_entry` (lines 920-947). -/
def handleAddListEntry (env : Env) (st : ConnState) (param : Param) :
    ConnState × Except PyErr Bool :=
  let p1 := "Adding list entry..."
  match listEntryOperationSetup param ("add") with
  | (ar, .raised e) => ret1 st [p1] ar (.error e)
  | (ar, .invalid) => ret1 st [p1] ar (.ok ar.status)
  | (ar, .ok payload endpoint) =>
    match makeAuthenticatedRequest env st ar endpoint none [] (some payload) ("post") with
    | (req, ar, false, _) => ret2 st [p1] req ar (.ok ar.status)
    | (req, ar, true, pl) =>
      match mapAddEditListEntry (pl.getD (.json .null)) payload endpoint ar with
      | .error e => ret2 st [p1] req (setStatus ar false (parseErrMsg e)) (.ok false)
      | .ok ar2 =>
        ret2 st [p1, "Successfully completed add_list_entry"] req
          (setStatus ar2 true
            ("Successfully added entry in " ++ listTypeOfEndpoint endpoint)) (.ok true)

/-- `_handle_edit_list_entry` (lines 949-976). -/
def handleEditListEntry (env : Env) (st : ConnState) (param : Param) :
    ConnState × Except PyErr Bool :=
  let p1 := "Editing list entry..."
  match listEntryOperationSetup param ("edit") with
  | (ar, .raised e) => ret1 st [p1] ar (.error e)
  | (ar, .invalid) => ret1 st [p1] ar (.ok ar.status)
  | (ar, .ok payload endpoint) =>
    match makeAuthenticatedRequest env st ar endpoint none [] (some payload) ("post") with
    | (req, ar, false, _) => ret2 st [p1] req ar (.ok ar.status)
    | (req, ar, true, pl) =>
      match mapAddEditListEntry (pl.getD (.json .null)) payload endpoint ar with
      | .error e => ret2 st [p1] req (setStatus ar false (parseErrMsg e)) (.ok false)
      | .ok ar2 =>
        ret2 st [p1, "Successfully completed edit_list_entry"] req
          (setStatus ar2 true
            ("Successfully edited entry in " ++ listTypeOfEndpoint endpoint)) (.ok true)

/-- Response mapping of `_handle_delete_list_entry` (lines 995-1008). -/
def mapDeleteListEntry (p : Payload) (payload : Json) (endpoint : String)
    (ar : ActionResult) : Except PyErr ActionResult := do
  let data ← pGetD p ("data") (.obj [])
  let ar := addData ar data
  let viewBy ← jKey payload ("viewBy")
  let tc ← jGetD data ("totalCount") (.num 0)
  pure (updateSummary ar (.obj
    [("list_type", .str (listTypeOfEndpoint endpoint)), ("view_by", viewBy),
     ("total_deleted", tc), ("status", .str ("success"))]))

/-- `_handle_delete_list_entry` (lines 978-1012). -/
def handleDeleteListEntry (env : Env) (st : ConnState) (param : Param) :
    ConnState × Except PyErr Bool :=
  let p1 := "Deleting list entry..."
  match listEntryOperationSetup param ("delete") with
  | (ar, .raised e) => ret1 st [p1] ar (.error e)
  | (ar, .invalid) => ret1 st [p1] ar (.ok ar.status)
  | (ar, .ok payload endpoint) =>
    let ar := updateSummary ar (.obj [("payload", payload)])
    match makeAuthenticatedRequest env st ar endpoint none [] (some payload) ("delete") with
    | (req, ar, false, _) => ret2 st [p1] req ar (.ok ar.status)
    | (req, ar, true, pl) =>
      match mapDeleteListEntry (pl.getD (.json .null)) payload endpoint ar with
      | .error e => ret2 st [p1] req (setStatus ar false (parseErrMsg e)) (.ok false)
      | .ok ar2 =>
        ret2 st [p1, "Successfully completed delete_list_entry"] req
          (setStatus ar2 true
            ("Successfully deleted entries from " ++ listTypeOfEndpoint endpoint)) (.ok true)

def statsOptionalParams : List (String × String) :=
  [("query_type", "query_type"), ("order_by", "orderBy"), ("order_direction", "orderDir"),
   ("top", "top"), ("filter_value", "filterValue"), ("filter_by", "filterBy"),
   ("filter_operator", "filterOperator"), ("device_group_name", "device_group_name"),
   ("device_name", "device_name")]

/-- Response mapping of `_handle_get_statistics_report` (lines
1077-1084). -/
def mapStatsReport (p : Payload) (reportType : Json) (ar : ActionResult) :
    Except PyErr ActionResult := do
  let data ← pGetD p ("data") (.obj [])
  let ar := addData ar data
  let meta ← pGetD p ("meta") (.obj [])
  let tc ← jGetD meta ("totalCount") (.num 0)
  pure (updateSummary ar (.obj [("report_type", reportType), ("total_count", tc)]))

/-- `_handle_get_statistics_report` (lines 1014-1088). -/
def handleGetStatisticsReport (env : Env) (st : ConnState) (param : Param) :
    ConnState × Except PyErr Bool :=
  let p1 := "Getting statistics report..."
  let ar := ActionResult.init param
  let reportType := pget param ("report_type")
  let deviceType := pgetD param ("device_type") (.str ("esa"))
  if !truthyO (pget param ("start_date")) || !truthyO (pget param ("end_date")) then
    ret1 st [p1] (setStatus ar false msgDatesRequired) (.ok false)
  else
    match parseAndFormatDate env (pgetD param ("start_date") .null) true true with
    | .error e => ret1 st [p1] ar (.error e)
    | .ok sd =>
    match parseAndFormatDate env (pgetD param ("end_date") .null) true true with
    | .error e => ret1 st [p1] ar (.error e)
    | .ok ed =>
    if !truthyO reportType then
      ret1 st [p1] (setStatus ar false ("Parameter \x27report_type\x27 is required")) (.ok false)
    else
    let ps : Param := [("startDate", .str sd), ("endDate", .str ed),
      ("device_type", deviceType),
      ("offset", pgetD param ("offset") (.num CISCOSMA_DEFAULT_LIST_OFFSET)),
      ("limit", pgetD param ("limit") (.num CISCOSMA_DEFAULT_LIST_LIMIT))]
    let ps := addOptionalParams param statsOptionalParams ps
    if truthyO (pget ps ("orderDir")) &&
        !inValidList (pgetD ps ("orderDir") .null) CISCOSMA_VALID_ORDER_DIRECTIONS then
      ret1 st [p1] (setStatus ar false
        ("Invalid parameter \x27order_direction\x27. Must be one of: " ++
          listReprPy CISCOSMA_VALID_ORDER_DIRECTIONS)) (.ok false)
    else if truthyO (pget ps ("filterOperator")) &&
        !inValidList (pgetD ps ("filterOperator") .null)
          CISCOSMA_VALID_FILTER_OPERATORS_REPORT then
      ret1 st [p1] (setStatus ar false
        ("Invalid parameter \x27filter_operator\x27. Must be one of: " ++
          listReprPy CISCOSMA_VALID_FILTER_OPERATORS_REPORT)) (.ok false)
    else
    let counter := pget param ("counter")
    let rtv := reportType.getD .null
    let endpoint :=
      if truthyO counter then
        reportingEndpoint (pyFStr rtv ++ "/" ++ pyFStr (counter.getD .null))
      else reportingEndpoint (pyFStr rtv)
    match makeAuthenticatedRequest env st ar endpoint none ps none ("get") with
    | (req, ar, false, _) => ret2 st [p1] req ar (.ok ar.status)
    | (req, ar, true, pl) =>
      match mapStatsReport (pl.getD (.json .null)) rtv ar with
      | .error e => ret2 st [p1] req (setStatus ar false (parseErrMsg e)) (.ok false)
      | .ok ar2 =>
        ret2 st [p1, "Successfully completed get_statistics_report"] req
          (setStatus ar2 true ("Successfully retrieved statistics report")) (.ok true)

/-- `_sanitize_file_name` (lines 162-171): `re.sub` removing commas and
both quote characters. -/
def sanitizeFileName (s : String) : String :=
  ⟨s.data.filter (fun c => !(c == ',' || c == '"' || c == '\x27'))⟩

/-- Indices at which `sub` occurs in `s`. -/
def occIndices (s sub : List Char) : List Nat :=
  (List.range (s.length + 1)).filter (fun i => sub.isPrefixOf (s.drop i))

/-- `s.split(sub)[-1]`: the text after the last occurrence of `sub`
(the whole string when `sub` does not occur). -/
def afterLastOcc (s sub : String) : String :=
  match (occIndices s.data sub.data).getLast? with
  | none => s
  | some i => ⟨s.data.drop (i + sub.data.length)⟩

/-- Filename recovery from a Content-Disposition header (lines
185-191). -/
def extractFilename (cd : String) : Option String :=
  if containsSubstr ("filename=") cd then
    some (pyStripChars (afterLastOcc cd ("filename=")) ['"'])
  else if containsSubstr ("filename*=") cd then
    some (afterLastOcc (afterLastOcc cd ("filename*=")) ("\x27\x27"))
  else none

/-- `_download_to_vault` (lines 173-230): recover a filename, sanitize
it, optionally base64-decode the body, hand the bytes to the vault.
Returns `(success, vault_id, filename, error_message)`. -/
def downloadToVault (env : Env) (r : Response) (defaultName : Option String) :
    Bool × Option String × Option String × Option String :=
  let cd := (hFindCI r.headers ("Content-Disposition")).getD ""
  let fname0 := (extractFilename cd).getD ""
  let fname1 := if fname0 != "" then fname0
    else if (defaultName.getD "") != "" then defaultName.getD ""
    else "unknown_file"
  let filename := sanitizeFileName fname1
  let vaultRet := env.vaultAdd filename
  if !vaultRet.succeeded then
    (false, none, none, some ("Error adding file to vault: " ++
      (vaultRet.message.getD ("Unknown error"))))
  else
    match vaultRet.vaultId with
    | none => (false, none, none, some ("No vault ID returned from vault_add"))
    | some vid =>
      if vid == "" then (false, none, none, some ("No vault ID returned from vault_add"))
      else (true, some vid, some filename, none)

/-- `_handle_download_attachment` (lines 1090-1146). -/
def handleDownloadAttachment (env : Env) (st : ConnState) (param : Param) :
    ConnState × Except PyErr Bool :=
  let p1 := "Downloading attachment..."
  let ar := ActionResult.init param
  if !truthyO (pget param ("message_id")) then
    ret1 st [p1] (setStatus ar false msgMessageIdRequired) (.ok false)
  else if !truthyO (pget param ("attachment_id")) then
    ret1 st [p1] (setStatus ar false ("Parameter \x27attachment_id\x27 is required")) (.ok false)
  else
    let mid := pgetD param ("message_id") .null
    let aid := pgetD param ("attachment_id") .null
    let ps : Param := [("mid", mid), ("attachmentId", aid), ("quarantineType", .str ("pvo"))]
    let hs : Headers := [("Accept", "*/*"), ("Content-Type", "application/json")]
    match makeAuthenticatedRequest env st ar CISCOSMA_DOWNLOAD_ATTACHMENT_ENDPOINT (some hs) ps none ("get") with
    | (req, ar, false, _) => ret2 st [p1] req ar (.ok ar.status)
    | (req, ar, true, pl) =>
      match pl.getD (.json .null) with
      | .json _ =>
        -- a parsed-JSON payload has no `.headers`: AttributeError caught
        -- by the handler's outer try/except
        ret2 st [p1] req (setStatus ar false
          ("Error downloading attachment: \x27dict\x27 object has no attribute \x27headers\x27"))
          (.ok false)
      | .raw r =>
        let ct := (hFindCI r.headers ("Content-Type")).getD ""
        let jsonErrorShortcut : Option String :=
          if containsSubstr ("application/json") (strLower ct) then
            match r.jsonBody with
            | none => none
            | some ej =>
              match (do
                let errObj ← jGetD ej ("error") (.obj [])
                jGetD errObj ("message") (.str ("Unknown error occurred")) :
                  Except PyErr Json) with
              | .error _ => none
              | .ok em => some ("API Error: " ++ pyFStr em)
          else none
        match jsonErrorShortcut with
        | some m => ret2 st [p1] req (setStatus ar false m) (.ok false)
        | none =>
          let defaultName := "attachment_" ++ pyFStr mid ++ "_" ++ pyFStr aid
          match downloadToVault env r (some defaultName) with
          | (false, _, _, errMsg) =>
            ret2 st [p1] req (setStatus ar false (errMsg.getD "")) (.ok false)
          | (true, vaultId, fname, _) =>
            let vid := vaultId.getD ""
            let filename := fname.getD ""
            let ar := addData ar (.obj [("vault_id", .str vid), ("filename", .str filename)])
            let ar := updateSummary ar (.obj [("vault_id", .str vid),
              ("filename", .str filename),
              ("size", .str ((hFindCI r.headers ("Content-Length")).getD ("Unknown")))])
            ret2 st [p1, "Successfully completed download_attachment"] req
              (setStatus ar true
                ("Successfully downloaded attachment \x27" ++ filename ++ "\x27 to vault"))
              (.ok true)

/-! ### `handle_action` dispatch -/

/-- The `action_mapping` dict of `handle_action` (lines 1159-1177). -/
def actionMapping :
    List (String × (Env → ConnState → Param → ConnState × Except PyErr Bool)) :=
  [("test_connectivity", handleTestConnectivity),
   ("search_spam_quarantine_messages", handleSearchSpamQuarantineMessages),
   ("search_general_quarantine_messages", handleSearchGeneralQuarantineMessages),
   ("search_tracking_messages", handleSearchTrackingMessages),
   ("get_spam_quarantine_message_details", handleGetSpamQuarantineMessageDetails),
   ("get_general_quarantine_message_details", handleGetGeneralQuarantineMessageDetails),
   ("get_message_tracking_details", handleGetMessageTrackingDetails),
   ("release_spam_message", handleReleaseSpamMessage),
   ("release_general_quarantine_message", handleReleaseGeneralQuarantineMessage),
   ("delete_spam_message", handleDeleteSpamMessage),
   ("delete_general_quarantine_message", handleDeleteGeneralQuarantineMessage),
   ("search_list", handleSearchList),
   ("add_list_entry", handleAddListEntry),
   ("edit_list_entry", handleEditListEntry),
   ("delete_list_entry", handleDeleteListEntry),
   ("get_statistics_report", handleGetStatisticsReport),
   ("download_attachment", handleDownloadAttachment)]

/-- The seventeen supported action identifiers. -/
def supportedActions : List String := actionMapping.map (·.1)

/-- `handle_action` (lines 1156-1187): dispatch on the action
identifier; an unsupported identifier falls through to the
initialized `phantom.APP_SUCCESS` status with nothing invoked. -/
def handleAction (env : Env) (st : ConnState) (action : String) (param : Param) :
    ConnState × Except PyErr Bool :=
  match actionMapping.lookup action with
  | some f => f env st param
  | none => (st, .ok true)

/-! ### Token-strategy Orchestrator (spec sections 4.2 and 4.3) -/

/-- Modelled from the spec: the token-strategy Credential Manager and
the retrying Orchestrator of spec sections 4.2/4.3 are not present in
`src` (only the login endpoint constant `CISCOSMA_GET_TOKEN_ENDPOINT`
is declared in `ciscosma_consts.py`; the shipped Orchestrator uses the
static basic-auth strategy).  Oracles: `acquire n` is the result of the
n-th token acquisition within one `send`, `exec i req t` the result of
the i-th issue of `req` carrying bearer token `t`. -/
structure TokenEnv where
  acquire : Nat → Except String String
  exec : Nat → Request → String → Except String Json

/-- Modelled from the spec: resolve the credential for the first
attempt — the cached token if present, otherwise one acquisition which
aborts the call on failure (spec 4.3, "abort immediately (no retry) if
acquisition fails").  Also returns the index of the next acquisition. -/
def tokenFirstCred (env : TokenEnv) (cached : Option String) :
    Except String (String × Nat) :=
  match cached with
  | some t => .ok (t, 0)
  | none =>
    match env.acquire 0 with
    | .error m => .error m
    | .ok t => .ok (t, 1)

/-- Outcome of one orchestrated send under the token strategy: final
result, the log of issued request copies with the token each carried,
the number of acquisition calls, and the token cache afterwards. -/
structure TokenSendOut where
  result : Except String Json
  execLog : List (Request × String)
  acquisitions : Nat
  cache : Option String

/-- Modelled from the spec: expiry detection — "the failure message
contains the case-insensitive substring token" (spec 4.3). -/
def isTokenExpiryMsg (m : String) : Bool := containsSubstr ("token") (strLower m)

/-- Modelled from the spec: `send` of the token-strategy Orchestrator
(spec 4.3).  Acquire a credential if none is cached; issue the request;
on a failure whose message indicates expiry, acquire a fresh token
(bypassing the cache) and re-issue the identical request exactly once,
the second outcome being final. -/
def tokenSend (env : TokenEnv) (cached : Option String) (req : Request) : TokenSendOut :=
  match tokenFirstCred env cached with
  | .error m => { result := .error m, execLog := [], acquisitions := 1, cache := none }
  | .ok (t, a) =>
    match env.exec 0 req t with
    | .ok payload =>
      { result := .ok payload, execLog := [(req, t)], acquisitions := a, cache := some t }
    | .error m =>
      if isTokenExpiryMsg m then
        match env.acquire a with
        | .error m2 =>
          { result := .error m2, execLog := [(req, t)], acquisitions := a + 1, cache := none }
        | .ok t2 =>
          { result := env.exec 1 req t2, execLog := [(req, t), (req, t2)],
            acquisitions := a + 1, cache := some t2 }
      else
        { result := .error m, execLog := [(req, t)], acquisitions := a, cache := some t }

/-! ### Helper lemmas -/

@[simp] lemma ret1_cfg (st : ConnState) (progs : List String) (ar : ActionResult)
    (r : Except PyErr Bool) : (ret1 st progs ar r).1.cfg = st.cfg := rfl

@[simp] lemma ret2_cfg (st : ConnState) (progs : List String) (req : Request)
    (ar : ActionResult) (r : Except PyErr Bool) : (ret2 st progs req ar r).1.cfg = st.cfg := rfl

lemma cfg_handleTestConnectivity (env : Env) (st : ConnState) (param : Param) :
    (handleTestConnectivity env st param).1.cfg = st.cfg := by
  unfold handleTestConnectivity
  dsimp only
  repeat' split <;> simp

lemma cfg_handleSearchSpamQuarantineMessages (env : Env) (st : ConnState) (param : Param) :
    (handleSearchSpamQuarantineMessages env st param).1.cfg = st.cfg := by
  unfold handleSearchSpamQuarantineMessages
  dsimp only
  repeat' split
  all_goals simp

lemma cfg_handleSearchGeneralQuarantineMessages (env : Env) (st : ConnState) (param : Param) :
    (handleSearchGeneralQuarantineMessages env st param).1.cfg = st.cfg := by
  unfold handleSearchGeneralQuarantineMessages
  dsimp only
  repeat' split
  all_goals simp

lemma cfg_handleSearchTrackingMessages (env : Env) (st : ConnState) (param : Param) :
    (handleSearchTrackingMessages env st param).1.cfg = st.cfg := by
  unfold handleSearchTrackingMessages
  dsimp only
  repeat' split
  all_goals simp

lemma cfg_handleGetSpamQuarantineMessageDetails (env : Env) (st : ConnState) (param : Param) :
    (handleGetSpamQuarantineMessageDetails env st param).1.cfg = st.cfg := by
  unfold handleGetSpamQuarantineMessageDetails
  dsimp only
  repeat' split
  all_goals simp

lemma cfg_handleGetGeneralQuarantineMessageDetails (env : Env) (st : ConnState) (param : Param) :
    (handleGetGeneralQuarantineMessageDetails env st param).1.cfg = st.cfg := by
  unfold handleGetGeneralQuarantineMessageDetails
  dsimp only
  repeat' split
  all_goals simp

lemma cfg_handleGetMessageTrackingDetails (env : Env) (st : ConnState) (param : Param) :
    (handleGetMessageTrackingDetails env st param).1.cfg = st.cfg := by
  unfold handleGetMessageTrackingDetails
  dsimp only
  repeat' split
  all_goals simp

lemma cfg_handleReleaseSpamMessage (env : Env) (st : ConnState) (param : Param) :
    (handleReleaseSpamMessage env st param).1.cfg = st.cfg := by
  unfold handleReleaseSpamMessage
  dsimp only
  repeat' split
  all_goals simp

lemma cfg_handleReleaseGeneralQuarantineMessage (env : Env) (st : ConnState) (param : Param) :
    (handleReleaseGeneralQuarantineMessage env st param).1.cfg = st.cfg := by
  unfold handleReleaseGeneralQuarantineMessage
  dsimp only
  repeat' split
  all_goals simp

lemma cfg_handleDeleteSpamMessage (env : Env) (st : ConnState) (param : Param) :
    (handleDeleteSpamMessage env st param).1.cfg = st.cfg := by
  unfold handleDeleteSpamMessage
  dsimp only
  repeat' split
  all_goals simp

lemma cfg_handleDeleteGeneralQuarantineMessage (env : Env) (st : ConnState) (param : Param) :
    (handleDeleteGeneralQuarantineMessage env st param).1.cfg = st.cfg := by
  unfold handleDeleteGeneralQuarantineMessage
  dsimp only
  repeat' split
  all_goals simp

lemma cfg_handleSearchList (env : Env) (st : ConnState) (param : Param) :
    (handleSearchList env st param).1.cfg = st.cfg := by
  unfold handleSearchList
  dsimp only
  repeat' split
  all_goals simp

lemma cfg_handleAddListEntry (env : Env) (st : ConnState) (param : Param) :
    (handleAddListEntry env st param).1.cfg = st.cfg := by
  unfold handleAddListEntry
  dsimp only
  repeat' split
  all_goals simp

lemma cfg_handleEditListEntry (env : Env) (st : ConnState) (param : Param) :
    (handleEditListEntry env st param).1.cfg = st.cfg := by
  unfold handleEditListEntry
  dsimp only
  repeat' split
  all_goals simp

lemma cfg_handleDeleteListEntry (env : Env) (st : ConnState) (param : Param) :
    (handleDeleteListEntry env st param).1.cfg = st.cfg := by
  unfold handleDeleteListEntry
  dsimp only
  repeat' split
  all_goals simp

lemma cfg_handleGetStatisticsReport (env : Env) (st : ConnState) (param : Param) :
    (handleGetStatisticsReport env st param).1.cfg = st.cfg := by
  unfold handleGetStatisticsReport
  dsimp only
  repeat' split
  all_goals simp

lemma cfg_handleDownloadAttachment (env : Env) (st : ConnState) (param : Param) :
    (handleDownloadAttachment env st param).1.cfg = st.cfg := by
  unfold handleDownloadAttachment
  dsimp only
  repeat' split
  all_goals simp

lemma cfg_lookup_aux
    (m : List (String × (Env → ConnState → Param → ConnState × Except PyErr Bool)))
    (h : ∀ kf ∈ m, ∀ env st param, ((kf.2) env st param).1.cfg = st.cfg)
    (env : Env) (st : ConnState) (action : String) (param : Param) :
    (match m.lookup action with
      | some f => f env st param
      | none => (st, .ok true)).1.cfg = st.cfg := by
  induction m with
  | nil => rfl
  | cons a t ih =>
    cases hb : action == a.1 with
    | true =>
      have hl : (a :: t).lookup action = some a.2 := by
        simp only [List.lookup, hb]
      rw [hl]
      exact h a (List.mem_cons_self a t) env st param
    | false =>
      have hl : (a :: t).lookup action = t.lookup action := by
        simp only [List.lookup, hb]
      rw [hl]
      exact ih (fun kf hk => h kf (List.mem_cons_of_mem a hk))

lemma cfg_handleAction (env : Env) (st : ConnState) (action : String) (param : Param) :
    (handleAction env st action param).1.cfg = st.cfg := by
  unfold handleAction
  refine cfg_lookup_aux actionMapping ?_ env st action param
  intro kf hk
  simp only [actionMapping, List.mem_cons, List.not_mem_nil, or_false] at hk
  rcases hk with rfl|rfl|rfl|rfl|rfl|rfl|rfl|rfl|rfl|rfl|rfl|rfl|rfl|rfl|rfl|rfl|rfl
  · exact cfg_handleTestConnectivity
  · exact cfg_handleSearchSpamQuarantineMessages
  · exact cfg_handleSearchGeneralQuarantineMessages
  · exact cfg_handleSearchTrackingMessages
  · exact cfg_handleGetSpamQuarantineMessageDetails
  · exact cfg_handleGetGeneralQuarantineMessageDetails
  · exact cfg_handleGetMessageTrackingDetails
  · exact cfg_handleReleaseSpamMessage
  · exact cfg_handleReleaseGeneralQuarantineMessage
  · exact cfg_handleDeleteSpamMessage
  · exact cfg_handleDeleteGeneralQuarantineMessage
  · exact cfg_handleSearchList
  · exact cfg_handleAddListEntry
  · exact cfg_handleEditListEntry
  · exact cfg_handleDeleteListEntry
  · exact cfg_handleGetStatisticsReport
  · exact cfg_handleDownloadAttachment

lemma dropWhile_head_not (p : Char → Bool) (l : List Char) :
    ∀ c, (l.dropWhile p).head? = some c → p c = false := by
  induction l with
  | nil => intro c hc; simp [List.dropWhile] at hc
  | cons a t ih =>
    intro c hc
    by_cases ha : p a
    · rw [List.dropWhile_cons_of_pos ha] at hc
      exact ih c hc
    · rw [List.dropWhile_cons_of_neg ha] at hc
      simp only [List.head?_cons, Option.some.injEq] at hc
      subst hc
      exact Bool.eq_false_iff.mpr ha

lemma rstrip_no_trailing_slash (s : String) :
    ((rstripSlashes s).data.getLast? == some '/') = false := by
  show (((s.data.reverse.dropWhile (fun c => c == '/')).reverse).getLast? == some '/') = false
  rw [List.getLast?_reverse]
  cases hh : (s.data.reverse.dropWhile (fun c => c == '/')).head? with
  | none => rfl
  | some c =>
    have hc := dropWhile_head_not (fun c => c == '/') s.data.reverse c hh
    show (c == '/') = false
    exact hc

lemma lookup_none_of_not_mem_keys {β : Type _} (m : List (String × β)) (k : String)
    (h : k ∉ m.map Prod.fst) : m.lookup k = none := by
  induction m with
  | nil => rfl
  | cons a t ih =>
    simp only [List.map_cons, List.mem_cons] at h
    push_neg at h
    have hb : (k == a.1) = false := beq_eq_false_iff_ne.mpr h.1
    simp only [List.lookup, hb]
    exact ih h.2

/-! ### Concrete witness environments -/

def cfgW : Config :=
  { baseUrl := "https://sma.example", username := "u", password := "p", verify := false }

def stW : ConnState := { cfg := cfgW }

/-- An environment whose date parser always raises and whose transport
always fails with a connection error. -/
def envW : Env :=
  { parseDate := fun _ => none
    transport := fun _ _ => .reqExn ""
    b64decode := fun _ => none
    vaultAdd := fun _ => { succeeded := false, message := none, vaultId := none } }

/-- An environment whose date parser accepts everything. -/
def envW2 : Env :=
  { parseDate := fun _ => some
      { year := 2024, month := 1, day := 2, hour := 3, minute := 4, second := 5,
        microsecond := 6 }
    transport := fun _ _ => .reqExn ""
    b64decode := fun _ => none
    vaultAdd := fun _ => { succeeded := false, message := none, vaultId := none } }

/-! ### Claim theorems -/

/-- Claim C9: for every operation handler and every input, the
configuration (base_url, username, password, TLS-verification flag) is
unchanged after the handler runs; it is written only by `initialize`
(`mkConfig`), which strips any trailing slash from the base URL. -/
theorem C9_config_immutable :
    (∀ env st action param,
      (handleAction env st action param).1.cfg = st.cfg) ∧
    (∀ raw : RawConfig,
      (mkConfig raw).baseUrl = rstripSlashes raw.host ∧
      (mkConfig raw).username = raw.username ∧
      (mkConfig raw).password = raw.password ∧
      (mkConfig raw).verify = raw.verifyServerCert.getD false ∧
      ((mkConfig raw).baseUrl.data.getLast? == some '/') = false) := by
  constructor
  · exact cfg_handleAction
  · intro raw
    exact ⟨rfl, rfl, rfl, rfl, rstrip_no_trailing_slash raw.host⟩

/-- Claim C10: any action identifier outside the seventeen supported
names makes `handle_action` return the initialized success status with
no handler invoked, no Result Envelope created and no network call. -/
theorem C10_unknown_action_noop (env : Env) (st : ConnState) (param : Param)
    (action : String) (h : action ∉ supportedActions) :
    handleAction env st action param = (st, .ok true) := by
  unfold handleAction
  rw [lookup_none_of_not_mem_keys actionMapping action h]

/-- Witness for C10 at the concrete unsupported identifier
"unknown_action". -/
theorem C10_witness :
    handleAction envW stW ("unknown_action") [] = (stW, .ok true) :=
  C10_unknown_action_noop envW stW [] ("unknown_action") (by decide)

lemma lookup_map_set {β : Type _} (hs : List (String × β)) (k : String) (v : β)
    (h : hs.any (fun q => q.1 == k) = true) :
    (hs.map (fun q => if q.1 == k then (k, v) else q)).lookup k = some v := by
  induction hs with
  | nil => simp at h
  | cons a t ih =>
    simp only [List.any_cons, Bool.or_eq_true] at h
    simp only [List.map_cons]
    by_cases ha : (a.1 == k) = true
    · rw [if_pos ha]
      simp [List.lookup]
    · rw [if_neg ha]
      have ha' : (a.1 == k) = false := Bool.eq_false_iff.mpr ha
      have hk : (k == a.1) = false := by
        rw [beq_eq_false_iff_ne] at ha' ⊢
        exact fun e => ha' e.symm
      simp only [List.lookup, hk]
      exact ih (h.resolve_left ha)

lemma lookup_append_single {β : Type _} (hs : List (String × β)) (k : String) (v : β)
    (h : hs.any (fun q => q.1 == k) = false) :
    (hs ++ [(k, v)]).lookup k = some v := by
  induction hs with
  | nil => simp [List.lookup]
  | cons a t ih =>
    simp only [List.any_cons, Bool.or_eq_false_iff] at h
    have hk : (k == a.1) = false := by
      rw [beq_eq_false_iff_ne] at h ⊢
      · exact fun e => h.1 e.symm
    simp only [List.cons_append, List.lookup, hk]
    exact ih h.2

lemma hFind_hset (hs : Headers) (k v : String) : hFind (hset hs k v) k = some v := by
  unfold hset hFind
  by_cases hc : hs.any (fun q => q.1 == k) = true
  · rw [if_pos hc]
    exact lookup_map_set hs k v hc
  · rw [if_neg hc]
    exact lookup_append_single hs k v (Bool.eq_false_iff.mpr hc)

/-- Claim C5: under the static-credential strategy every authenticated
request carries an Authorization header equal to "Basic " followed by
the base64 of "username:password", recomputed purely from the
configuration (the right-hand side depends only on `st.cfg`). -/
theorem C5_basic_auth_header (env : Env) (st : ConnState) (ar : ActionResult)
    (endpoint : String) (headers : Option Headers) (params : List (String × Json))
    (jsonData : Option Json) (method : String) :
    hFind (makeAuthenticatedRequest env st ar endpoint headers params jsonData method).1.headers
        ("Authorization") =
      some ("Basic " ++ base64Encode (utf8Bytes (st.cfg.username ++ ":" ++ st.cfg.password))) := by
  show hFind (hset (headers.getD defaultJsonHeaders) ("Authorization") (basicAuthValue st.cfg))
      ("Authorization") = _
  rw [hFind_hset]
  rfl

/-! ### Substring machinery for C3/C4 -/

lemma infixOfB_of_infix {n h : List Char} (hi : n <:+: h) : infixOfB n h = true := by
  induction h with
  | nil =>
    rw [List.infix_nil] at hi
    subst hi
    rfl
  | cons c t ih =>
    rw [List.infix_cons_iff] at hi
    rcases hi with hp | hi
    · unfold infixOfB
      rw [List.isPrefixOf_iff_prefix.mpr hp]
      rfl
    · unfold infixOfB
      rw [ih hi]
      simp

lemma containsSubstr_of_parts (n s t hay : String)
    (hh : hay.data = s.data ++ n.data ++ t.data) : containsSubstr n hay = true := by
  apply infixOfB_of_infix
  exact ⟨s.data, t.data, hh.symm⟩

/-- A 500 response with JSON content type whose body is not valid
JSON. -/
def respCx : Response :=
  { status := 500
    headers := [("Content-Type", "application/json")]
    text := "oops"
    jsonBody := none }

/-- A 404 response with a non-JSON content type. -/
def respWx : Response :=
  { status := 404
    headers := [("Content-Type", "text/plain")]
    text := "nope"
    jsonBody := none }

lemma data_empty : ("" : String).data = [] := rfl

/-- Claim C3 counterexample: a 500 response with JSON content type and
a body that is not valid JSON is classified as a failure whose message
is the invalid-JSON error — it contains the body text but not the
status code 500, contradicting "carrying status code and raw body text
in the error message ... regardless of whether the body is valid
JSON". -/
theorem C3_counterexample :
    restCallClassify (.resp respCx) =
      .error ("Invalid JSON response from server: oops") ∧
    containsSubstr ("500") ("Invalid JSON response from server: oops") = false := by
  exact ⟨rfl, by decide⟩

/-- Claim C3 (amended): every non-200 response is classified as a
failure whose message contains the raw body text; the message also
contains the status code except when the content type is JSON and the
body fails to parse, in which case it is exactly the invalid-JSON
error (body text only). -/
theorem C3_amended (r : Response) (h : r.status ≠ 200) :
    ∃ m, restCallClassify (.resp r) = .error m ∧
      containsSubstr r.text m = true ∧
      ((containsSubstr ("application/json") (strLower r.contentType) = true ∧
          r.jsonBody = none) →
        m = "Invalid JSON response from server: " ++ r.text) ∧
      ((containsSubstr ("application/json") (strLower r.contentType) = false ∨
          r.jsonBody ≠ none) →
        m = apiFailMsg r ∧ containsSubstr (toString r.status) m = true) := by
  have hs : (r.status != 200) = true := by simpa using h
  have hApiText : containsSubstr r.text (apiFailMsg r) = true := by
    apply containsSubstr_of_parts r.text
      ("API call failed. Status code: " ++ toString r.status ++ ". Response: ") ("")
    simp [apiFailMsg, String.data_append, data_empty]
  have hApiCode : containsSubstr (toString r.status) (apiFailMsg r) = true := by
    apply containsSubstr_of_parts (toString r.status)
      ("API call failed. Status code: ") (". Response: " ++ r.text)
    simp [apiFailMsg, String.data_append]
  by_cases hct : containsSubstr ("application/json") (strLower r.contentType) = true
  · cases hj : r.jsonBody with
    | none =>
      refine ⟨"Invalid JSON response from server: " ++ r.text, ?_, ?_, ?_, ?_⟩
      · simp only [restCallClassify]
        rw [if_pos hct, hj]
      · apply containsSubstr_of_parts r.text ("Invalid JSON response from server: ") ("")
        simp [String.data_append, data_empty]
      · intro _; rfl
      · intro hc
        rcases hc with hc | hc
        · rw [hct] at hc; cases hc
        · simp [hj] at hc
    | some j =>
      refine ⟨apiFailMsg r, ?_, hApiText, ?_, fun _ => ⟨rfl, hApiCode⟩⟩
      · simp only [restCallClassify]
        rw [if_pos hct, hj]
        dsimp only
        rw [if_pos hs]
      · intro hc
        cases hc.2
  · have hct' : containsSubstr ("application/json") (strLower r.contentType) = false :=
      Bool.eq_false_iff.mpr hct
    refine ⟨apiFailMsg r, ?_, hApiText, ?_, fun _ => ⟨rfl, hApiCode⟩⟩
    · simp only [restCallClassify]
      rw [if_neg hct, if_pos hs]
    · intro hc
      rw [hct'] at hc
      cases hc.1

/-- Witness for C3 (amended) at a concrete non-JSON 404 response. -/
theorem C3_amended_witness :
    ∃ m, restCallClassify (.resp respWx) = .error m ∧
      containsSubstr ("nope") m = true ∧
      containsSubstr ("404") m = true := by
  obtain ⟨m, h1, h2, -, h4⟩ := C3_amended respWx (by decide)
  refine ⟨m, h1, h2, ?_⟩
  exact (h4 (Or.inl (by decide))).2

/-- A 200 response carrying parsed JSON. -/
def respJok : Response :=
  { status := 200
    headers := [("Content-Type", "application/json; charset=utf-8")]
    text := "\x7b\x7d"
    jsonBody := some (.obj []) }

/-- A 200 response with a non-JSON content type (attachment download). -/
def respRaw : Response :=
  { status := 200
    headers := [("Content-Type", "application/octet-stream")]
    text := "QUJD"
    jsonBody := none }

/-- Claim C4: the Executor's interpretation of a response is determined
by its content type — a JSON content type means the body is parsed
(success yields the parsed structure; a parse failure yields the
invalid-JSON error, which never coincides with either transport-error
classification), while a non-JSON content type yields the raw unparsed
response object on success. -/
theorem C4_content_type_interpretation :
    (∀ (r : Response) (j : Json),
      containsSubstr ("application/json") (strLower r.contentType) = true →
      r.jsonBody = some j → r.status = 200 →
      restCallClassify (.resp r) = .ok (.json j)) ∧
    (∀ r : Response,
      containsSubstr ("application/json") (strLower r.contentType) = true →
      r.jsonBody = none →
      restCallClassify (.resp r) = .error ("Invalid JSON response from server: " ++ r.text) ∧
      (∀ m, restCallClassify (.resp r) ≠ restCallClassify (.reqExn m)) ∧
      (∀ m, restCallClassify (.resp r) ≠ restCallClassify (.otherExn m))) ∧
    (∀ r : Response,
      containsSubstr ("application/json") (strLower r.contentType) = false →
      r.status = 200 →
      restCallClassify (.resp r) = .ok (.raw r)) := by
  refine ⟨?_, ?_, ?_⟩
  · intro r j hct hj hs
    simp only [restCallClassify]
    rw [if_pos hct, hj]
    dsimp only
    rw [if_neg (by simp [hs])]
  · intro r hct hj
    have hform : restCallClassify (.resp r) =
        .error ("Invalid JSON response from server: " ++ r.text) := by
      simp only [restCallClassify]
      rw [if_pos hct, hj]
    refine ⟨hform, ?_, ?_⟩
    · intro m heq
      rw [hform] at heq
      injection heq with hstr
      have h1 : ("Invalid JSON response from server: " ++ r.text).data.head? = some 'I' := by
        rw [String.data_append, List.head?_append]
        rfl
      have h2 : ("Error connecting to server: " ++ m).data.head? = some 'E' := by
        rw [String.data_append, List.head?_append]
        rfl
      rw [hstr, h2] at h1
      cases h1
    · intro m heq
      rw [hform] at heq
      injection heq with hstr
      have h1 : ("Invalid JSON response from server: " ++ r.text).data.head? = some 'I' := by
        rw [String.data_append, List.head?_append]
        rfl
      have h2 : ("Error making REST call: " ++ m).data.head? = some 'E' := by
        rw [String.data_append, List.head?_append]
        rfl
      rw [hstr, h2] at h1
      cases h1
  · intro r hct hs
    simp only [restCallClassify]
    rw [if_neg (by simp [hct]), if_neg (by simp [hs])]

/-- Witness for C4 on concrete responses: parsed-JSON success, the
invalid-JSON failure, and the raw pass-through. -/
theorem C4_witness :
    restCallClassify (.resp respJok) = .ok (.json (.obj [])) ∧
    restCallClassify (.resp respCx) =
      .error ("Invalid JSON response from server: oops") ∧
    restCallClassify (.resp respRaw) = .ok (.raw respRaw) :=
  ⟨C4_content_type_interpretation.1 respJok (.obj []) (by decide) rfl rfl,
   (C4_content_type_interpretation.2.1 respCx (by decide) rfl).1,
   C4_content_type_interpretation.2.2 respRaw (by decide) rfl⟩

/-- Parameters of a spam-quarantine search with an unparseable start
date. -/
def paramBadDate : Param :=
  [("start_date", .str ("not-a-date")), ("end_date", .str ("2024-01-02"))]

/-- Claim C2 (code bug): with an unparseable start_date, the spam
quarantine search handler raises the dateutil exception — it escapes
the handler instead of being converted into a failed Result Envelope,
because `_parse_and_format_date` is invoked outside any try/except
(`ciscosma_connector.py` lines 351-352, with `parser.parse` at line
153).  `envW.parseDate` models `dateutil` raising on this input. -/
theorem C2_unparseable_date_raises :
    (handleSearchSpamQuarantineMessages envW stW paramBadDate).2 =
      .error (.valueError ("Unknown string format: not-a-date")) := rfl

/-- Claim C1 (spec-modelled): under the token strategy, when the first
attempt fails with a message containing "token" case-insensitively and
the forced fresh acquisition yields a token, the Orchestrator performs
exactly one additional acquisition, re-issues the identical request
exactly once, and returns the second attempt's outcome — success or
failure — as final. -/
theorem C1_token_retry_once (env : TokenEnv) (cached : Option String) (req : Request)
    (t0 : String) (a0 : Nat) (m : String) (t1 : String)
    (h0 : tokenFirstCred env cached = .ok (t0, a0))
    (h1 : env.exec 0 req t0 = .error m)
    (h2 : isTokenExpiryMsg m = true)
    (h3 : env.acquire a0 = .ok t1) :
    (tokenSend env cached req).result = env.exec 1 req t1 ∧
    (tokenSend env cached req).execLog = [(req, t0), (req, t1)] ∧
    (tokenSend env cached req).acquisitions = a0 + 1 := by
  unfold tokenSend
  rw [h0]
  dsimp only
  rw [h1]
  dsimp only
  rw [if_pos h2, h3]
  exact ⟨rfl, rfl, rfl⟩

/-- A token environment whose first attempt fails with a
token-expiry-looking message and whose retry succeeds. -/
def tokenEnvW : TokenEnv :=
  { acquire := fun n => .ok (if n = 0 then "tok0" else "tok1")
    exec := fun i _ _ => if i = 0 then .error ("401: token expired") else .ok (.obj []) }

def reqW : Request :=
  { method := "get"
    url := "https://sma.example/x"
    headers := []
    params := []
    jsonBody := none
    verify := false }

/-- Witness for C1: the concrete run acquires once at the start, once
after the expiry-flavoured failure, issues the identical request twice,
and ends with the second attempt's success. -/
theorem C1_witness :
    (tokenSend tokenEnvW none reqW).result = .ok (.obj []) ∧
    (tokenSend tokenEnvW none reqW).execLog = [(reqW, "tok0"), (reqW, "tok1")] ∧
    (tokenSend tokenEnvW none reqW).acquisitions = 2 := by
  have h := C1_token_retry_once tokenEnvW none reqW ("tok0") 1 ("401: token expired")
    ("tok1") rfl rfl (by decide) rfl
  exact ⟨by rw [h.1]; rfl, h.2.1, h.2.2⟩

/-! ### Param-map lemmas for C6/C7 -/

lemma beq_symm_false {k k' : String} (h : (k' == k) = false) : (k == k') = false := by
  rw [beq_eq_false_iff_ne] at h ⊢
  exact fun e => h e.symm

lemma lookup_map_set_ne {β : Type _} (p : List (String × β)) (k k' : String) (v : β)
    (h : (k' == k) = false) :
    (p.map (fun q => if q.1 == k then (k, v) else q)).lookup k' = p.lookup k' := by
  induction p with
  | nil => rfl
  | cons a t ih =>
    simp only [List.map_cons]
    by_cases ha : (a.1 == k) = true
    · rw [if_pos ha]
      have he : a.1 = k := eq_of_beq ha
      have h2 : (k' == a.1) = false := by rw [he]; exact h
      simp only [List.lookup, h, h2]
      exact ih
    · rw [if_neg ha]
      by_cases hk : (k' == a.1) = true
      · simp only [List.lookup, hk]
      · have hk' : (k' == a.1) = false := Bool.eq_false_iff.mpr hk
        simp only [List.lookup, hk']
        exact ih

lemma lookup_append_single_ne {β : Type _} (p : List (String × β)) (k k' : String) (v : β)
    (h : (k' == k) = false) :
    (p ++ [(k, v)]).lookup k' = p.lookup k' := by
  induction p with
  | nil => simp [List.lookup, h]
  | cons a t ih =>
    by_cases hk : (k' == a.1) = true
    · simp only [List.cons_append, List.lookup, hk]
    · have hk' : (k' == a.1) = false := Bool.eq_false_iff.mpr hk
      simp only [List.cons_append, List.lookup, hk']
      exact ih

lemma pget_pset_eq (p : Param) (k : String) (v : Json) : pget (pset p k v) k = some v := by
  unfold pset pget
  by_cases hc : p.any (fun q => q.1 == k) = true
  · rw [if_pos hc]
    exact lookup_map_set p k v hc
  · rw [if_neg hc]
    exact lookup_append_single p k v (Bool.eq_false_iff.mpr hc)

lemma pget_pset_ne (p : Param) (k k' : String) (v : Json) (h : (k' == k) = false) :
    pget (pset p k v) k' = pget p k' := by
  unfold pset pget
  by_cases hc : p.any (fun q => q.1 == k) = true
  · rw [if_pos hc]
    exact lookup_map_set_ne p k k' v h
  · rw [if_neg hc]
    exact lookup_append_single_ne p k k' v h

/-- The payload and endpoint produced by a list-entry setup, when it
produced any. -/
def payloadEndpointOf (out : ActionResult × SetupOut) : Option (Json × String) :=
  match out.2 with
  | .ok p e => some (p, e)
  | _ => none

def paramC8 : Param :=
  [("list_type", .str ("safelist")), ("view_by", .str ("recipient")),
   ("recipient_list", .str ("a@x.com,b@x.com"))]

/-- Claim C8: the delete-list-entry setup with list_type "safelist",
view_by "recipient" and recipient_list "a@x.com,b@x.com" produces
exactly the payload with quarantineType "spam", viewBy "recipient" and
recipientList ["a@x.com", "b@x.com"] — no "action" key — against the
safelist endpoint. -/
theorem C8_delete_safelist_payload :
    listEntryOperationSetup paramC8 ("delete") =
      (ActionResult.init paramC8,
       .ok (.obj [("quarantineType", .str ("spam")), ("viewBy", .str ("recipient")),
         ("recipientList", .arr [.str ("a@x.com"), .str ("b@x.com")])])
         CISCOSMA_SAFELIST_ENDPOINT) := rfl

def paramC7str : Param :=
  [("list_type", .str ("safelist")), ("view_by", .str ("recipient")),
   ("recipient_list", .str (""))]

def paramC7arr : Param :=
  [("list_type", .str ("safelist")), ("view_by", .str ("recipient")),
   ("recipient_list", .arr [.str ("")])]

/-- Claim C7 counterexample: for the empty string, splitting on commas
gives [""], but the two parameter forms do not produce the same payload
— the empty string is falsy and rejected as a missing required
parameter (no payload at all), while the equivalent array [""] is
truthy and accepted. -/
theorem C7_counterexample :
    payloadEndpointOf (listEntryOperationSetup paramC7str ("delete")) = none ∧
    payloadEndpointOf (listEntryOperationSetup paramC7arr ("delete")) =
      some (.obj [("quarantineType", .str ("spam")), ("viewBy", .str ("recipient")),
        ("recipientList", .arr [.str ("")])], CISCOSMA_SAFELIST_ENDPOINT) :=
  ⟨rfl, rfl⟩

lemma splitCommaList_ne_nil (l : List Char) : splitCommaList l ≠ [] := by
  induction l with
  | nil => simp [splitCommaList]
  | cons c rest ih =>
    unfold splitCommaList
    by_cases hc : c = ','
    · simp [hc]
    · rw [if_neg hc]
      cases h : splitCommaList rest with
      | nil => simp
      | cons g gs => simp

lemma splitTrim_ne_nil (s : String) : splitTrim s ≠ [] := by
  unfold splitTrim pySplitComma
  intro h
  rw [List.map_eq_nil_iff, List.map_eq_nil_iff] at h
  exact splitCommaList_ne_nil s.data h

set_option maxHeartbeats 2000000 in
/-- Claim C7 (amended): for every nonempty string-valued list parameter
of the list-entry operations, splitting on commas with whitespace
trimmed yields exactly the payload and endpoint obtained by passing the
equivalent array directly.  (The empty string is the one exception: it
is treated as a missing parameter, per `C7_counterexample`.) -/
theorem C7_split_equals_array (param : Param) (action : String) (k : String) (s : String)
    (hk : k = "recipient_list" ∨ k = "recipient_addresses" ∨ k = "sender_list" ∨
      k = "sender_addresses")
    (hs : s ≠ "") :
    payloadEndpointOf (listEntryOperationSetup (pset param k (.str s)) action) =
      payloadEndpointOf (listEntryOperationSetup
        (pset param k (.arr ((splitTrim s).map Json.str))) action) := by
  have ht : (Json.str s).truthy = (Json.arr ((splitTrim s).map Json.str)).truthy := by
    have h1 : (Json.str s).truthy = true := by
      simp [Json.truthy]
      exact hs
    have h2 : (Json.arr ((splitTrim s).map Json.str)).truthy = true := by
      simp [Json.truthy, List.isEmpty_eq_false_iff_exists_mem, List.map_eq_nil_iff]
      intro hnil
      exact splitTrim_ne_nil s hnil
    rw [h1, h2]
  have hc : convListParam (.str s) = convListParam (.arr ((splitTrim s).map Json.str)) := rfl
  rcases hk with rfl | rfl | rfl | rfl
  · unfold listEntryOperationSetup
    simp only [pgetD]
    rw [pget_pset_ne param ("recipient_list") ("list_type") (.str s) (by decide),
      pget_pset_ne param ("recipient_list") ("list_type") (.arr ((splitTrim s).map Json.str)) (by decide),
      pget_pset_ne param ("recipient_list") ("view_by") (.str s) (by decide),
      pget_pset_ne param ("recipient_list") ("view_by") (.arr ((splitTrim s).map Json.str)) (by decide),
      pget_pset_ne param ("recipient_list") ("recipient_addresses") (.str s) (by decide),
      pget_pset_ne param ("recipient_list") ("recipient_addresses") (.arr ((splitTrim s).map Json.str)) (by decide),
      pget_pset_ne param ("recipient_list") ("sender_list") (.str s) (by decide),
      pget_pset_ne param ("recipient_list") ("sender_list") (.arr ((splitTrim s).map Json.str)) (by decide),
      pget_pset_ne param ("recipient_list") ("sender_addresses") (.str s) (by decide),
      pget_pset_ne param ("recipient_list") ("sender_addresses") (.arr ((splitTrim s).map Json.str)) (by decide),
      pget_pset_eq param ("recipient_list") (.str s),
      pget_pset_eq param ("recipient_list") (.arr ((splitTrim s).map Json.str))]
    simp only [truthyO, Option.getD_some]
    rw [ht, hc]
    repeat' split
    all_goals simp_all [payloadEndpointOf]
  · unfold listEntryOperationSetup
    simp only [pgetD]
    rw [pget_pset_ne param ("recipient_addresses") ("list_type") (.str s) (by decide),
      pget_pset_ne param ("recipient_addresses") ("list_type") (.arr ((splitTrim s).map Json.str)) (by decide),
      pget_pset_ne param ("recipient_addresses") ("view_by") (.str s) (by decide),
      pget_pset_ne param ("recipient_addresses") ("view_by") (.arr ((splitTrim s).map Json.str)) (by decide),
      pget_pset_ne param ("recipient_addresses") ("recipient_list") (.str s) (by decide),
      pget_pset_ne param ("recipient_addresses") ("recipient_list") (.arr ((splitTrim s).map Json.str)) (by decide),
      pget_pset_ne param ("recipient_addresses") ("sender_list") (.str s) (by decide),
      pget_pset_ne param ("recipient_addresses") ("sender_list") (.arr ((splitTrim s).map Json.str)) (by decide),
      pget_pset_ne param ("recipient_addresses") ("sender_addresses") (.str s) (by decide),
      pget_pset_ne param ("recipient_addresses") ("sender_addresses") (.arr ((splitTrim s).map Json.str)) (by decide),
      pget_pset_eq param ("recipient_addresses") (.str s),
      pget_pset_eq param ("recipient_addresses") (.arr ((splitTrim s).map Json.str))]
    simp only [truthyO, Option.getD_some]
    rw [ht, hc]
    repeat' split
    all_goals simp_all [payloadEndpointOf]
  · unfold listEntryOperationSetup
    simp only [pgetD]
    rw [pget_pset_ne param ("sender_list") ("list_type") (.str s) (by decide),
      pget_pset_ne param ("sender_list") ("list_type") (.arr ((splitTrim s).map Json.str)) (by decide),
      pget_pset_ne param ("sender_list") ("view_by") (.str s) (by decide),
      pget_pset_ne param ("sender_list") ("view_by") (.arr ((splitTrim s).map Json.str)) (by decide),
      pget_pset_ne param ("sender_list") ("recipient_list") (.str s) (by decide),
      pget_pset_ne param ("sender_list") ("recipient_list") (.arr ((splitTrim s).map Json.str)) (by decide),
      pget_pset_ne param ("sender_list") ("recipient_addresses") (.str s) (by decide),
      pget_pset_ne param ("sender_list") ("recipient_addresses") (.arr ((splitTrim s).map Json.str)) (by decide),
      pget_pset_ne param ("sender_list") ("sender_addresses") (.str s) (by decide),
      pget_pset_ne param ("sender_list") ("sender_addresses") (.arr ((splitTrim s).map Json.str)) (by decide),
      pget_pset_eq param ("sender_list") (.str s),
      pget_pset_eq param ("sender_list") (.arr ((splitTrim s).map Json.str))]
    simp only [truthyO, Option.getD_some]
    rw [ht, hc]
    repeat' split
    all_goals simp_all [payloadEndpointOf]
  · unfold listEntryOperationSetup
    simp only [pgetD]
    rw [pget_pset_ne param ("sender_addresses") ("list_type") (.str s) (by decide),
      pget_pset_ne param ("sender_addresses") ("list_type") (.arr ((splitTrim s).map Json.str)) (by decide),
      pget_pset_ne param ("sender_addresses") ("view_by") (.str s) (by decide),
      pget_pset_ne param ("sender_addresses") ("view_by") (.arr ((splitTrim s).map Json.str)) (by decide),
      pget_pset_ne param ("sender_addresses") ("recipient_list") (.str s) (by decide),
      pget_pset_ne param ("sender_addresses") ("recipient_list") (.arr ((splitTrim s).map Json.str)) (by decide),
      pget_pset_ne param ("sender_addresses") ("recipient_addresses") (.str s) (by decide),
      pget_pset_ne param ("sender_addresses") ("recipient_addresses") (.arr ((splitTrim s).map Json.str)) (by decide),
      pget_pset_ne param ("sender_addresses") ("sender_list") (.str s) (by decide),
      pget_pset_ne param ("sender_addresses") ("sender_list") (.arr ((splitTrim s).map Json.str)) (by decide),
      pget_pset_eq param ("sender_addresses") (.str s),
      pget_pset_eq param ("sender_addresses") (.arr ((splitTrim s).map Json.str))]
    simp only [truthyO, Option.getD_some]
    rw [ht, hc]
    repeat' split
    all_goals simp_all [payloadEndpointOf]

def paramC7base : Param :=
  [("list_type", .str ("safelist")), ("view_by", .str ("recipient"))]

/-- Witness for C7 (amended) at recipient_list "a@x.com, b@x.com". -/
theorem C7_witness :
    payloadEndpointOf (listEntryOperationSetup
        (pset paramC7base ("recipient_list") (.str ("a@x.com, b@x.com"))) ("delete")) =
      payloadEndpointOf (listEntryOperationSetup
        (pset paramC7base ("recipient_list")
          (.arr ((splitTrim ("a@x.com, b@x.com")).map Json.str))) ("delete")) :=
  C7_split_equals_array paramC7base ("delete") ("recipient_list") ("a@x.com, b@x.com")
    (Or.inl rfl) (by decide)

/-! ### Optional-parameter fold lemmas for C6 -/

lemma addOpt_cons (param : Param) (a : String × String) (t : List (String × String))
    (ps : Param) :
    addOptionalParams param (a :: t) ps =
      addOptionalParams param t
        (match pget param a.1 with
         | some v => if v.truthy then pset ps a.2 v else ps
         | none => ps) := rfl

lemma pget_addOpt_ne (param : Param) (k : String) :
    ∀ (opts : List (String × String)) (ps : Param),
    (∀ kv ∈ opts, (k == kv.2) = false) →
    pget (addOptionalParams param opts ps) k = pget ps k := by
  intro opts
  induction opts with
  | nil => intro ps _; rfl
  | cons a t ih =>
    intro ps h
    rw [addOpt_cons]
    rw [ih _ (fun kv hk => h kv (List.mem_cons_of_mem a hk))]
    cases hv : pget param a.1 with
    | none => rfl
    | some v =>
      dsimp only
      by_cases ht : v.truthy = true
      · rw [if_pos ht]
        exact pget_pset_ne ps a.2 k v (h a (List.mem_cons_self a t))
      · rw [if_neg ht]

/-- In the spam-quarantine search, a truthy order_by parameter ends up
under the "orderBy" key of the built query params. -/
lemma pget_addOpt_orderBy (param : Param) (ps : Param) (v : Json)
    (h5 : pget param ("order_by") = some v) (h6 : v.truthy = true) :
    pget (addOptionalParams param searchSpamOptionalParams ps) ("orderBy") = some v := by
  unfold searchSpamOptionalParams
  rw [addOpt_cons]
  rw [h5]
  dsimp only
  rw [if_pos h6]
  rw [pget_addOpt_ne param ("orderBy") _ _ (by decide)]
  exact pget_pset_eq ps ("orderBy") v

@[simp] lemma ret1_netLog (st : ConnState) (progs : List String) (ar : ActionResult)
    (r : Except PyErr Bool) : (ret1 st progs ar r).1.netLog = st.netLog := rfl

/-- Claim C6: with the required dates present and parseable, an
out-of-set order_by makes the spam-quarantine search fail locally with
a message naming order_by and no network request issued; a truthy
non-integer string message_id makes the release/delete handlers fail
locally with a message naming message_id and no network request
issued. -/
theorem C6_local_validation :
    (∀ (env : Env) (st : ConnState) (param : Param) (v : Json) (d1 d2 : String),
      truthyO (pget param ("start_date")) = true →
      truthyO (pget param ("end_date")) = true →
      parseAndFormatDate env (pgetD param ("start_date") .null) false true = .ok d1 →
      parseAndFormatDate env (pgetD param ("end_date") .null) false true = .ok d2 →
      pget param ("order_by") = some v →
      v.truthy = true →
      inValidList v CISCOSMA_VALID_ORDER_BY = false →
      handleSearchSpamQuarantineMessages env st param =
        ret1 st ["Searching for spam quarantine messages..."]
          (setStatus (ActionResult.init param) false msgInvalidOrderBy) (.ok false) ∧
      (handleSearchSpamQuarantineMessages env st param).1.netLog = st.netLog ∧
      containsSubstr ("order_by") msgInvalidOrderBy = true) ∧
    (∀ (env : Env) (st : ConnState) (param : Param) (s : String),
      pget param ("message_id") = some (.str s) →
      (s != "") = true →
      pyIntOfStr s = none →
      handleReleaseSpamMessage env st param =
        ret1 st ["Releasing spam message..."]
          (setStatus (ActionResult.init param) false msgMessageIdInt) (.ok false) ∧
      (handleReleaseSpamMessage env st param).1.netLog = st.netLog ∧
      containsSubstr ("message_id") msgMessageIdInt = true) ∧
    (∀ (env : Env) (st : ConnState) (param : Param) (s : String),
      pget param ("message_id") = some (.str s) →
      (s != "") = true →
      pyIntOfStr s = none →
      handleDeleteSpamMessage env st param =
        ret1 st ["Deleting spam message..."]
          (setStatus (ActionResult.init param) false msgMessageIdInt) (.ok false) ∧
      (handleDeleteSpamMessage env st param).1.netLog = st.netLog ∧
      containsSubstr ("message_id") msgMessageIdInt = true) := by
  refine ⟨?_, ?_, ?_⟩
  · intro env st param v d1 d2 h1 h2 h3 h4 h5 h6 h7
    have hOrd : pget (addOptionalParams param searchSpamOptionalParams
        [("startDate", .str d1), ("endDate", .str d2), ("quarantineType", .str ("spam")),
         ("offset", (pget param ("offset")).getD (.num CISCOSMA_DEFAULT_LIST_OFFSET)),
         ("limit", (pget param ("limit")).getD (.num CISCOSMA_DEFAULT_LIST_LIMIT))])
        ("orderBy") = some v :=
      pget_addOpt_orderBy param _ v h5 h6
    have hmain : handleSearchSpamQuarantineMessages env st param =
        ret1 st ["Searching for spam quarantine messages..."]
          (setStatus (ActionResult.init param) false msgInvalidOrderBy) (.ok false) := by
      unfold handleSearchSpamQuarantineMessages
      dsimp only
      rw [if_neg (by rw [h1, h2]; decide)]
      rw [h3]
      dsimp only
      rw [h4]
      dsimp only
      rw [if_pos (by
        simp only [pgetD]
        rw [hOrd]
        simp only [truthyO, Option.getD_some]
        rw [h6, h7]
        rfl)]
    exact ⟨hmain, by rw [hmain]; rfl, by decide⟩
  · intro env st param s h1 h2 h3
    have hmain : handleReleaseSpamMessage env st param =
        ret1 st ["Releasing spam message..."]
          (setStatus (ActionResult.init param) false msgMessageIdInt) (.ok false) := by
      unfold handleReleaseSpamMessage
      dsimp only
      rw [if_neg (by
        rw [h1]
        simp only [truthyO, Json.truthy]
        rw [h2]
        decide)]
      have hp : pgetD param ("message_id") .null = .str s := by
        simp only [pgetD]
        rw [h1]
        rfl
      rw [hp]
      simp only [pyToInt]
      rw [h3]
    exact ⟨hmain, by rw [hmain]; rfl, by decide⟩
  · intro env st param s h1 h2 h3
    have hmain : handleDeleteSpamMessage env st param =
        ret1 st ["Deleting spam message..."]
          (setStatus (ActionResult.init param) false msgMessageIdInt) (.ok false) := by
      unfold handleDeleteSpamMessage
      dsimp only
      rw [if_neg (by
        rw [h1]
        simp only [truthyO, Json.truthy]
        rw [h2]
        decide)]
      have hp : pgetD param ("message_id") .null = .str s := by
        simp only [pgetD]
        rw [h1]
        rfl
      rw [hp]
      simp only [pyToInt]
      rw [h3]
    exact ⟨hmain, by rw [hmain]; rfl, by decide⟩

def paramC6a : Param :=
  [("start_date", .str ("2024-01-01")), ("end_date", .str ("2024-01-05")),
   ("order_by", .str ("invalid_field"))]

def paramC6b : Param := [("message_id", .str ("abc"))]

/-- Witness for C6 at order_by "invalid_field" (with parseable dates)
and message_id "abc". -/
theorem C6_witness :
    (handleSearchSpamQuarantineMessages envW2 stW paramC6a).1.netLog = stW.netLog ∧
    (handleSearchSpamQuarantineMessages envW2 stW paramC6a).2 = .ok false ∧
    containsSubstr ("order_by") msgInvalidOrderBy = true ∧
    (handleReleaseSpamMessage envW stW paramC6b).1.netLog = stW.netLog ∧
    (handleReleaseSpamMessage envW stW paramC6b).2 = .ok false ∧
    (handleDeleteSpamMessage envW stW paramC6b).1.netLog = stW.netLog ∧
    containsSubstr ("message_id") msgMessageIdInt = true := by
  obtain ⟨hA, hB, hC⟩ := C6_local_validation
  obtain ⟨ha1, ha2, ha3⟩ := hA envW2 stW paramC6a (.str ("invalid_field"))
    ("2024-01-02T03:04:00.000Z") ("2024-01-02T03:04:00.000Z")
    rfl rfl rfl rfl rfl (by decide) (by decide)
  obtain ⟨hb1, hb2, hb3⟩ := hB envW stW paramC6b ("abc") rfl (by decide) rfl
  obtain ⟨hc1, hc2, _⟩ := hC envW stW paramC6b ("abc") rfl (by decide) rfl
  exact ⟨ha2, by rw [ha1]; rfl, ha3, hb2, by rw [hb1]; rfl, hc2, hb3⟩

end CiscoSMA

